import Mathlib

/-!
# Verification of the ml-inference-sim discrete-event simulator

A shallow embedding of `src/simulator.py` and `src/capacity.py`.

Python floats are modelled as rationals (`ℚ`), Python ints as `ℤ`/`ℕ`.
Python's mutable `Request`/`Device` objects are aliased through the
`requests_map` dictionary and the device list; the embedding threads that
state explicitly (the dictionary as an association list whose newest entry
for a key shadows older ones, exactly dict assignment followed by lookup).
The event priority queue is modelled by translating the
CPython `heapq` module (`heappush`, `heappop`, `_siftdown`, `_siftup`)
verbatim onto `List Event`; `Event` is a `@dataclass(order=True)` whose only
comparable field is `timestamp`, so `e1 < e2` is `e1.timestamp < e2.timestamp`.
Code that can raise (`KeyError` on a dict, `IndexError`/`TypeError` on list
indexing) is modelled with `Except String`.
-/

namespace MLSim

/-- `Request` from src/simulator.py: job description plus mutable timing
fields.  `start_time` and `completion_time` use the `-1.0` sentinel. -/
structure Request where
  id : ℕ
  arrival_time : ℚ
  input_tokens : ℤ
  output_tokens : ℤ
  start_time : ℚ := -1
  completion_time : ℚ := -1
deriving Repr, DecidableEq

/-- `Request.latency` property: `0.0` when either `completion_time` or
`arrival_time` is negative, else `completion_time - arrival_time`. -/
def Request.latency (r : Request) : ℚ :=
  if r.completion_time < 0 ∨ r.arrival_time < 0 then 0
  else r.completion_time - r.arrival_time

/-- `Event` from src/simulator.py: `@dataclass(order=True)` with every field
except `timestamp` marked `compare=False`, so ordering is by timestamp only. -/
structure Event where
  timestamp : ℚ
  type : String
  request_id : ℕ
  device_id : Option ℕ := none
deriving Repr, DecidableEq

instance : Inhabited Event := ⟨⟨0, "", 0, none⟩⟩

/-- `Device` from src/simulator.py.  `current_request` holds the id of the
owned request (the Python object reference, resolved through the map). -/
structure Device where
  id : ℕ
  ttft_ms : ℚ
  output_tokens_per_sec : ℚ
  is_busy : Bool
  current_request : Option ℕ
  total_busy_time : ℚ
deriving Repr, DecidableEq

instance : Inhabited Device := ⟨⟨0, 0, 0, false, none, 0⟩⟩

/-- `Device.__init__`: the source constructor body has no validation and no
`raise`; it just stores the fields and initialises the mutable state. -/
def Device.init (id : ℕ) (ttft_ms output_tokens_per_sec : ℚ) : Device :=
  { id := id
    ttft_ms := ttft_ms
    output_tokens_per_sec := output_tokens_per_sec
    is_busy := false
    current_request := none
    total_busy_time := 0 }

/-- `Device.calculate_duration`: `ttft_ms / 1000.0 + output_tokens /
output_tokens_per_sec`.  A pure function of the device constants and the
request's output token count. -/
def Device.calculate_duration (d : Device) (req : Request) : ℚ :=
  d.ttft_ms / 1000 + (req.output_tokens : ℚ) / d.output_tokens_per_sec

/-- `Cluster` from src/simulator.py: the ordered device pool. -/
structure Cluster where
  devices : List Device
deriving Repr, DecidableEq

/-- `Cluster.__init__`: builds `Device(i, ttft_ms, output_tokens_per_sec)`
for `i in range(num_devices)`; no validation, cannot raise. -/
def Cluster.init (num_devices : ℕ) (ttft_ms output_tokens_per_sec : ℚ) : Cluster :=
  ⟨(List.range num_devices).map fun i => Device.init i ttft_ms output_tokens_per_sec⟩

/-- The scan loop of `Cluster.get_next_device`: `for d in self.devices: if not
d.is_busy: return d`, falling through to `return None`. -/
def get_next_device : List Device → Option Device
  | [] => none
  | d :: ds => if d.is_busy then get_next_device ds else some d

/-- `Cluster.get_next_device`. -/
def Cluster.get_next_device (c : Cluster) : Option Device :=
  MLSim.get_next_device c.devices

/-- Index form of the same scan, used by the simulator embedding so that the
started device can be written back into the device list (Python mutates the
aliased `Device` object in place). -/
def firstFreeIdx : List Device → Option ℕ
  | [] => none
  | d :: ds => if d.is_busy then (firstFreeIdx ds).map (· + 1) else some 0

/-! ## The CPython `heapq` module on `List Event`

`heapq.heappush` / `heapq.heappop` translated line by line; list writes
`heap[i] = x` become `List.set`, `heap.append` becomes `++ [x]`, and
`heap.pop()` becomes `getLast` / `dropLast`.  Comparison is the `Event`
dataclass order, i.e. `<` on timestamps. -/

/-- Loop body of CPython `heapq._siftdown(heap, startpos, pos)`: bubble
`newitem` up from `pos` toward `startpos`, moving parents down until a parent
not greater than `newitem` is found, then place `newitem`.  The `fuel`
argument makes the recursion structural; the parent index `(pos - 1) / 2` is
strictly smaller than `pos`, so any `fuel ≥ pos` computes the loop exactly
(`siftdown` below passes `pos` itself), and when fuel and `pos` hit `0`
together the fallback `heap.set pos newitem` is the genuine final write. -/
def siftdownAux (startpos : ℕ) (newitem : Event) : ℕ → List Event → ℕ → List Event
  | 0, heap, pos => heap.set pos newitem
  | fuel + 1, heap, pos =>
    if startpos < pos then
      let parentpos := (pos - 1) / 2
      let parent := heap.getD parentpos default
      if newitem.timestamp < parent.timestamp then
        siftdownAux startpos newitem fuel (heap.set pos parent) parentpos
      else
        heap.set pos newitem
    else
      heap.set pos newitem

/-- CPython `heapq._siftdown(heap, startpos, pos)`. -/
def siftdown (startpos : ℕ) (newitem : Event) (heap : List Event) (pos : ℕ) : List Event :=
  siftdownAux startpos newitem pos heap pos

/-- Loop body of CPython `heapq._siftup(heap, pos)`: move the smaller child up
into the hole until reaching a childless position (ties prefer the right
child: the left child is promoted only when strictly smaller), then restore
the new item by `_siftdown`.  Structural `fuel`: the hole index strictly
increases while staying below `heap.length`, so any `fuel ≥ heap.length - pos`
computes the loop exactly; with zero fuel `2 * pos + 1 ≥ heap.length`, i.e.
the hole is childless and the fallback is the genuine terminal call. -/
def siftupAux (startpos : ℕ) (newitem : Event) : ℕ → List Event → ℕ → List Event
  | 0, heap, pos => siftdown startpos newitem heap pos
  | fuel + 1, heap, pos =>
    let endpos := heap.length
    let childpos := 2 * pos + 1
    if childpos < endpos then
      let childpos :=
        if childpos + 1 < endpos ∧
            ¬ (heap.getD childpos default).timestamp <
              (heap.getD (childpos + 1) default).timestamp then
          childpos + 1
        else childpos
      siftupAux startpos newitem fuel (heap.set pos (heap.getD childpos default)) childpos
    else
      siftdown startpos newitem heap pos

/-- CPython `heapq._siftup(heap, pos)`. -/
def siftup (startpos : ℕ) (newitem : Event) (heap : List Event) (pos : ℕ) : List Event :=
  siftupAux startpos newitem (heap.length - pos) heap pos

/-- CPython `heapq.heappush`: append, then `_siftdown(heap, 0, len(heap)-1)`. -/
def heappush (heap : List Event) (item : Event) : List Event :=
  siftdown 0 item (heap ++ [item]) heap.length

/-- CPython `heapq.heappop`: pop the last element; if the heap is still
non-empty, take the root as the return value, move the last element into the
root and `_siftup(heap, 0)`.  Returns `none` on an empty heap (Python raises
`IndexError`; the simulator loop only pops while the queue is non-empty). -/
def heappop (heap : List Event) : Option (Event × List Event) :=
  match heap.getLast? with
  | none => none
  | some lastelt =>
    match heap.dropLast with
    | [] => some (lastelt, [])
    | r0 :: rtail => some (r0, siftup 0 lastelt (lastelt :: rtail) 0)

/-! ## The Simulator

State of a `Simulator` object.  Python's `requests_map` dict aliases the
mutable `Request` objects; every mutation of a request goes through the map,
so the embedding keeps the map as the single owner (`ℕ → Option Request`) and
`waiting_queue` / `completed_requests` hold the request values at insertion
time (the source never mutates a request while it sits in either list, except
through aliases of the same id, which the registration protocol makes
unique). -/
structure SimState where
  devices : List Device
  events : List Event
  current_time : ℚ
  waiting_queue : List Request
  completed_requests : List Request
  requests_map : List (ℕ × Request)
deriving Repr, DecidableEq

/-- `Simulator.__init__(cluster)`. -/
def Simulator.init (c : Cluster) : SimState :=
  { devices := c.devices
    events := []
    current_time := 0
    waiting_queue := []
    completed_requests := []
    requests_map := [] }

/-- Python dict assignment `self.requests_map[k] = r`: the new binding
shadows any older binding of `k` (only lookups observe the map, so
prepending is observationally the dict update). -/
def mapSet (m : List (ℕ × Request)) (k : ℕ) (r : Request) : List (ℕ × Request) :=
  (k, r) :: m

/-- Python dict lookup `self.requests_map[k]`: newest binding first;
`none` models the `KeyError` case. -/
def mapGet : List (ℕ × Request) → ℕ → Option Request
  | [], _ => none
  | (k', r) :: m, k => if k = k' then some r else mapGet m k

/-- `Simulator.schedule_event`: push an `Event` onto the heap. -/
def schedule_event (st : SimState) (timestamp : ℚ) (type : String)
    (request_id : ℕ) (device_id : Option ℕ) : SimState :=
  { st with events := heappush st.events ⟨timestamp, type, request_id, device_id⟩ }

/-- `Simulator._start_job(device, req)`: mark the device at index `i` busy,
attach the request, set its start time to the clock, accumulate the busy
time, and schedule the `DEVICE_FREE` event at `now + duration`.  The device
is addressed by its list index because Python mutates the aliased `Device`
object inside `cluster.devices`. -/
def start_job (st : SimState) (i : ℕ) (req : Request) : SimState :=
  let d0 := st.devices.getD i default
  let req' := { req with start_time := st.current_time }
  let duration := d0.calculate_duration req'
  let d' := { d0 with
    is_busy := true
    current_request := some req'.id
    total_busy_time := d0.total_busy_time + duration }
  let st' := { st with
    devices := st.devices.set i d'
    requests_map := mapSet st.requests_map req'.id req' }
  schedule_event st' (st.current_time + duration) "DEVICE_FREE" req'.id (some d'.id)

/-- `Simulator.handle_arrival`: dict lookup (a missing id raises `KeyError`),
then dispatch to the first free device or append to the waiting queue. -/
def handle_arrival (st : SimState) (request_id : ℕ) : Except String SimState :=
  match mapGet st.requests_map request_id with
  | none => .error "KeyError: request_id not in requests_map"
  | some req =>
    match firstFreeIdx st.devices with
    | some i => .ok (start_job st i req)
    | none => .ok { st with waiting_queue := st.waiting_queue ++ [req] }

/-- `Simulator.handle_completion`: resolve request and device (`None` device
id raises `TypeError`, an out-of-range index raises `IndexError`), record the
completion time, append to the ledger, free the device, and if the waiting
queue is non-empty start its head on the freed device. -/
def handle_completion (st : SimState) (request_id : ℕ) (device_id : Option ℕ) :
    Except String SimState :=
  match mapGet st.requests_map request_id with
  | none => .error "KeyError: request_id not in requests_map"
  | some req =>
    match device_id with
    | none => .error "TypeError: list indices must be integers"
    | some di =>
      if di < st.devices.length then
        let req' := { req with completion_time := st.current_time }
        let d0 := st.devices.getD di default
        let d' := { d0 with is_busy := false, current_request := none }
        let st' := { st with
          requests_map := mapSet st.requests_map request_id req'
          completed_requests := st.completed_requests ++ [req']
          devices := st.devices.set di d' }
        match st'.waiting_queue with
        | [] => .ok st'
        | next :: rest => .ok (start_job { st' with waiting_queue := rest } di next)
      else .error "IndexError: list index out of range"

/-- One iteration of the `while self.events:` loop in `Simulator.run`: pop
the earliest event, advance the clock to its timestamp, and dispatch on its
kind.  The source has no `else` branch, so an unrecognized kind falls
through: the event is dropped and the loop continues.  `.ok none` signals an
empty queue (loop exit). -/
def runStep (st : SimState) : Except String (Option SimState) :=
  match heappop st.events with
  | none => .ok none
  | some (event, rest) =>
    let st' := { st with events := rest, current_time := event.timestamp }
    if event.type = "REQUEST_ARRIVAL" then
      (handle_arrival st' event.request_id).map some
    else if event.type = "DEVICE_FREE" then
      (handle_completion st' event.request_id event.device_id).map some
    else
      .ok (some st')

/-- The event loop, with structural fuel.  Every iteration removes one event
and adds at most one, and each `REQUEST_ARRIVAL` spawns at most one
`DEVICE_FREE` chain, so `2 * (number of requests) + 1` fuel (used by
`Simulator.run`) always drains the queue. -/
def runLoop : ℕ → SimState → Except String SimState
  | 0, st => .ok st
  | fuel + 1, st =>
    match runStep st with
    | .error e => .error e
    | .ok none => .ok st
    | .ok (some st') => runLoop fuel st'

/-- The registration prologue of `Simulator.run`: for every request, record
it in `requests_map` and schedule its `REQUEST_ARRIVAL` event. -/
def registerAll (st : SimState) (requests : List Request) : SimState :=
  requests.foldl
    (fun s r =>
      schedule_event { s with requests_map := mapSet s.requests_map r.id r }
        r.arrival_time "REQUEST_ARRIVAL" r.id none)
    st

/-- `Simulator.run(requests)` on a fresh simulator for `cluster`. -/
def Simulator.run (cluster : Cluster) (requests : List Request) : Except String SimState :=
  runLoop (2 * requests.length + 1) (registerAll (Simulator.init cluster) requests)

/-- Result of `Simulator.get_stats`: the source returns either the plain
string `"No requests completed."` or a dict of statistics. -/
inductive StatsResult where
  | message (s : String)
  | table (total_requests : ℕ)
      (avg_latency_sec max_latency_sec throughput_rpm total_time_sec : ℚ)
deriving Repr, DecidableEq

/-- Whether `get_stats` produced the statistics dict (rather than the bare
string sentinel). -/
def StatsResult.isTable : StatsResult → Bool
  | .message _ => false
  | .table _ _ _ _ _ => true

/-- `max()` over a non-empty Python list, seeded with its first element. -/
def listMax (x : ℚ) (xs : List ℚ) : ℚ := xs.foldl max x

/-- `Simulator.get_stats`. -/
def get_stats (st : SimState) : StatsResult :=
  match st.completed_requests with
  | [] => .message "No requests completed."
  | r :: rs =>
    let latencies := (r :: rs).map Request.latency
    let avg_lat := latencies.sum / (latencies.length : ℚ)
    let max_lat := listMax (r.latency) (rs.map Request.latency)
    let throughput :=
      ((r :: rs).length : ℚ) / (if 0 < st.current_time then st.current_time else 1) * 60
    .table (r :: rs).length avg_lat max_lat throughput st.current_time

/-! ## CapacityFinder (src/capacity.py)

`generate_workload` draws inter-arrival gaps from `random.expovariate`; the
embedding abstracts the random source as a stream `gaps : ℕ → ℚ` of drawn
values together with the index of the next draw, threaded through the whole
search exactly as the process-wide random state is in Python. -/

structure CapacityFinder where
  num_devices : ℕ
  ttft_ms : ℚ
  output_tokens_per_sec : ℚ
  input_tokens : ℤ
  output_tokens : ℤ
deriving Repr, DecidableEq

/-- The generation loop of `CapacityFinder.generate_workload`: request `i`
arrives one drawn gap after request `i - 1`, ids count up from 0. -/
def buildRequests (cf : CapacityFinder) (gaps : ℕ → ℚ) :
    ℕ → ℚ → ℕ → ℕ → List Request
  | _, _, _, 0 => []
  | idx, current_time, i, remaining + 1 =>
    let t := current_time + gaps idx
    { id := i
      arrival_time := t
      input_tokens := cf.input_tokens
      output_tokens := cf.output_tokens } ::
      buildRequests cf gaps (idx + 1) t (i + 1) remaining

/-- `CapacityFinder.generate_workload(rpm, duration_min)`:
`num_requests = int(rpm * duration_min)` (an empty list when that is not
positive), then the accumulation loop.  Returns the requests and the index of
the next unused random draw. -/
def generate_workload (cf : CapacityFinder) (gaps : ℕ → ℚ) (idx : ℕ)
    (rpm duration_min : ℚ) : List Request × ℕ :=
  let num_requests := (⌊rpm * duration_min⌋).toNat
  (buildRequests cf gaps idx 0 0 num_requests, idx + num_requests)

/-- `CapacityFinder.run_simulation(rpm, duration_min)`: fresh cluster and
simulator, generated workload, run, stats. -/
def run_simulation (cf : CapacityFinder) (gaps : ℕ → ℚ) (idx : ℕ)
    (rpm duration_min : ℚ) : Except String StatsResult × ℕ :=
  let cluster := Cluster.init cf.num_devices cf.ttft_ms cf.output_tokens_per_sec
  let (requests, idx') := generate_workload cf gaps idx rpm duration_min
  match Simulator.run cluster requests with
  | .error e => (.error e, idx')
  | .ok st => (.ok (get_stats st), idx')

/-- The closed-form seed bound computed at the top of
`CapacityFinder.find_max_rpm`: `(num_devices / service_time) * 60` with
`service_time = ttft_ms / 1000 + output_tokens / output_tokens_per_sec`. -/
def theoretical_max_rpm (cf : CapacityFinder) : ℚ :=
  let decode_time := (cf.output_tokens : ℚ) / cf.output_tokens_per_sec
  let service_time := cf.ttft_ms / 1000 + decode_time
  ((cf.num_devices : ℚ) / service_time) * 60

/-- The `for _ in range(10)` bisection loop of `CapacityFinder.find_max_rpm`,
parameterized by the oracle (`run_simulation` at a fixed duration).  Reading
`stats['throughput_rpm']` off the bare string returned for an empty run is a
`TypeError` in Python, hence the error case on `.message`. -/
def find_max_rpm_loop (oracle : ℕ → ℚ → Except String StatsResult × ℕ)
    (max_latency_threshold_sec : ℚ) :
    ℕ → ℕ → ℚ → ℚ → ℚ → Except String (ℚ × ℚ × ℚ × ℕ)
  | 0, idx, low, high, best_rpm => .ok (low, high, best_rpm, idx)
  | n + 1, idx, low, high, best_rpm =>
    let mid_rpm := (low + high) / 2
    match oracle idx mid_rpm with
    | (.error e, _) => .error e
    | (.ok (.message _), _) => .error "TypeError: string indices must be integers"
    | (.ok (.table _ avg_latency _ realized_rpm _), idx') =>
      if realized_rpm < mid_rpm * (95 / 100) ∨ avg_latency > max_latency_threshold_sec then
        find_max_rpm_loop oracle max_latency_threshold_sec n idx' low mid_rpm best_rpm
      else
        find_max_rpm_loop oracle max_latency_threshold_sec n idx' mid_rpm high mid_rpm

/-- `CapacityFinder.find_max_rpm(max_latency_threshold_sec, duration_min)`:
bisection for 10 iterations over `[1.0, theoretical_max_rpm * 1.5]`,
returning the last recorded `best_rpm` (initially `0.0`). -/
def find_max_rpm (cf : CapacityFinder) (gaps : ℕ → ℚ)
    (max_latency_threshold_sec duration_min : ℚ) : Except String ℚ :=
  match find_max_rpm_loop (fun idx rpm => run_simulation cf gaps idx rpm duration_min)
      max_latency_threshold_sec 10 0 1 (theoretical_max_rpm cf * (3 / 2)) 0 with
  | .error e => .error e
  | .ok (_, _, best_rpm, _) => .ok best_rpm

/-! ## Derived definitions used by the verification -/

/-- Index of the parent of heap slot `i` (CPython's `(pos - 1) >> 1`). -/
def parentIdx (i : ℕ) : ℕ := (i - 1) / 2

/-- Timestamp stored at heap slot `i`. -/
def tsAt (l : List Event) (i : ℕ) : ℚ := (l.getD i default).timestamp

/-- The binary min-heap shape invariant maintained by `heapq`: every non-root
slot is at least its parent. -/
def IsHeap (l : List Event) : Prop :=
  ∀ i, 0 < i → i < l.length → tsAt l (parentIdx i) ≤ tsAt l i

/-- Push a whole list of events, in order, into an (initially empty) heap. -/
def pushAll (es : List Event) : List Event := es.foldl heappush []

/-- Pop events until the heap is exhausted (fuel variant). -/
def drainLoop : ℕ → List Event → List Event
  | 0, _ => []
  | fuel + 1, h =>
    match heappop h with
    | none => []
    | some (e, h') => e :: drainLoop fuel h'

/-- Pop every event of a heap, in pop order. -/
def drain (h : List Event) : List Event := drainLoop h.length h

/-- The completed ledger of a finished run (empty for an aborted run). -/
def completedOf : Except String SimState → List Request
  | .error _ => []
  | .ok st => st.completed_requests

/-- `get_stats` applied to the final state of a run. -/
def statsOf : Except String SimState → Except String StatsResult
  | .error e => .error e
  | .ok st => .ok (get_stats st)

/-- Decidable equality for `Except`, used when evaluating concrete runs. -/
instance {α β : Type} [DecidableEq α] [DecidableEq β] : DecidableEq (Except α β) :=
  fun x y =>
    match x, y with
    | .error a, .error b => decidable_of_iff (a = b) (by simp)
    | .error _, .ok _ => isFalse (by simp)
    | .ok _, .error _ => isFalse (by simp)
    | .ok a, .ok b => decidable_of_iff (a = b) (by simp)

/-- The run invariant maintained by the event loop (used for claim C3):
heap shape, no event in the past, every pending arrival event carries its
request's arrival time, every pending completion event points at a request
whose start time is consistent, every waiter has already arrived, every
ledger entry satisfies the timing chain, and devices keep the constructor
constants. -/
structure Inv (st : SimState) : Prop where
  heap : IsHeap st.events
  future : ∀ e ∈ st.events, st.current_time ≤ e.timestamp
  arrivals : ∀ e ∈ st.events, e.type = "REQUEST_ARRIVAL" →
    ∃ r, mapGet st.requests_map e.request_id = some r ∧ r.id = e.request_id ∧
      r.arrival_time = e.timestamp ∧ 0 ≤ r.arrival_time ∧ 0 ≤ r.output_tokens
  frees : ∀ e ∈ st.events, e.type = "DEVICE_FREE" →
    ∃ r, mapGet st.requests_map e.request_id = some r ∧ r.arrival_time ≤ r.start_time ∧
      r.start_time ≤ e.timestamp
  waiting : ∀ r ∈ st.waiting_queue, mapGet st.requests_map r.id = some r ∧
    r.arrival_time ≤ st.current_time ∧ 0 ≤ r.arrival_time ∧ 0 ≤ r.output_tokens
  completed : ∀ r ∈ st.completed_requests,
    r.arrival_time ≤ r.start_time ∧ r.start_time ≤ r.completion_time
  devices : ∀ d ∈ st.devices, 0 ≤ d.ttft_ms ∧ 0 < d.output_tokens_per_sec
  uniq : (st.events.map Event.request_id ++ st.waiting_queue.map Request.id).Nodup

/-- Spec-side reading of one bisection iteration's classification (claim C5):
a candidate load is sustainable exactly when realized throughput is at least
`0.95 ×` the offered load and average latency is at most the threshold. -/
def bisection_trace (oracle : ℕ → ℚ → Except String StatsResult × ℕ)
    (max_latency_threshold_sec : ℚ) :
    ℕ → ℕ → ℚ → ℚ → Except String (List (ℚ × Bool))
  | 0, _, _, _ => .ok []
  | n + 1, idx, low, high =>
    let mid := (low + high) / 2
    match oracle idx mid with
    | (.error e, _) => .error e
    | (.ok (.message _), _) => .error "TypeError: string indices must be integers"
    | (.ok (.table _ avg_latency _ realized_rpm _), idx') =>
      let s : Bool := decide (realized_rpm ≥ mid * (95 / 100) ∧
        avg_latency ≤ max_latency_threshold_sec)
      match bisection_trace oracle max_latency_threshold_sec n idx'
          (if s then mid else low) (if s then high else mid) with
      | .error e => .error e
      | .ok tr => .ok ((mid, s) :: tr)

/-- The last candidate recorded as sustainable, or the default. -/
def last_sustainable (tr : List (ℚ × Bool)) (d : ℚ) : ℚ :=
  ((tr.filter fun p => p.2).map fun p => p.1).getLastD d

/-- Spec-side model of the whole capacity search, built from the words of the
specification: exactly 10 bisection iterations over
`[1, 1.5 × theoreticalMaxRate]`, each classified by the sustainability test
above, sustainable candidates raising the lower bound and being recorded,
unsustainable ones lowering the upper bound, and the answer being the last
recorded sustainable candidate (0 if none). -/
def find_max_rpm_spec (cf : CapacityFinder) (gaps : ℕ → ℚ)
    (max_latency_threshold_sec duration_min : ℚ) : Except String ℚ :=
  match bisection_trace (fun idx rpm => run_simulation cf gaps idx rpm duration_min)
      max_latency_threshold_sec 10 0 1 (theoretical_max_rpm cf * (3 / 2)) with
  | .error e => .error e
  | .ok tr => .ok (last_sustainable tr 0)

/-! ## Concrete states of the capacity-search evaluation (claim C6) -/

/-- Random draw stream for the concrete capacity-search evaluation. -/
def cseGaps : ℕ → ℚ := fun _ => 1 / 1000

/-- Request 0 of bisection iteration 1 of the concrete search. -/
def cseR1_0 : Request := { id := 0, arrival_time := 1/1000, input_tokens := 128, output_tokens := 31, start_time := -1, completion_time := -1 }

/-- Simulator state after 0 loop steps, bisection iteration 1. -/
def cseS1_0 : SimState :=
  { devices := [{ id := 0, ttft_ms := 1000, output_tokens_per_sec := 1, is_busy := false, current_request := none, total_busy_time := 0 }]
    events := [{ timestamp := 1/1000, type := "REQUEST_ARRIVAL", request_id := 0, device_id := none }]
    current_time := 0
    waiting_queue := []
    completed_requests := []
    requests_map := [(0, { id := 0, arrival_time := 1/1000, input_tokens := 128, output_tokens := 31, start_time := -1, completion_time := -1 })] }

/-- Simulator state after 1 loop steps, bisection iteration 1. -/
def cseS1_1 : SimState :=
  { devices := [{ id := 0, ttft_ms := 1000, output_tokens_per_sec := 1, is_busy := true, current_request := some 0, total_busy_time := 32 }]
    events := [{ timestamp := 32001/1000, type := "DEVICE_FREE", request_id := 0, device_id := some 0 }]
    current_time := 1/1000
    waiting_queue := []
    completed_requests := []
    requests_map := [(0, { id := 0, arrival_time := 1/1000, input_tokens := 128, output_tokens := 31, start_time := 1/1000, completion_time := -1 }), (0, { id := 0, arrival_time := 1/1000, input_tokens := 128, output_tokens := 31, start_time := -1, completion_time := -1 })] }

/-- Simulator state after 2 loop steps, bisection iteration 1. -/
def cseS1_2 : SimState :=
  { devices := [{ id := 0, ttft_ms := 1000, output_tokens_per_sec := 1, is_busy := false, current_request := none, total_busy_time := 32 }]
    events := []
    current_time := 32001/1000
    waiting_queue := []
    completed_requests := [{ id := 0, arrival_time := 1/1000, input_tokens := 128, output_tokens := 31, start_time := 1/1000, completion_time := 32001/1000 }]
    requests_map := [(0, { id := 0, arrival_time := 1/1000, input_tokens := 128, output_tokens := 31, start_time := 1/1000, completion_time := 32001/1000 }), (0, { id := 0, arrival_time := 1/1000, input_tokens := 128, output_tokens := 31, start_time := 1/1000, completion_time := -1 }), (0, { id := 0, arrival_time := 1/1000, input_tokens := 128, output_tokens := 31, start_time := -1, completion_time := -1 })] }

/-- Request 0 of bisection iteration 2 of the concrete search. -/
def cseR2_0 : Request := { id := 0, arrival_time := 1/1000, input_tokens := 128, output_tokens := 31, start_time := -1, completion_time := -1 }

/-- Request 1 of bisection iteration 2 of the concrete search. -/
def cseR2_1 : Request := { id := 1, arrival_time := 1/500, input_tokens := 128, output_tokens := 31, start_time := -1, completion_time := -1 }

/-- Simulator state after 0 loop steps, bisection iteration 2. -/
def cseS2_0 : SimState :=
  { devices := [{ id := 0, ttft_ms := 1000, output_tokens_per_sec := 1, is_busy := false, current_request := none, total_busy_time := 0 }]
    events := [{ timestamp := 1/1000, type := "REQUEST_ARRIVAL", request_id := 0, device_id := none }, { timestamp := 1/500, type := "REQUEST_ARRIVAL", request_id := 1, device_id := none }]
    current_time := 0
    waiting_queue := []
    completed_requests := []
    requests_map := [(1, { id := 1, arrival_time := 1/500, input_tokens := 128, output_tokens := 31, start_time := -1, completion_time := -1 }), (0, { id := 0, arrival_time := 1/1000, input_tokens := 128, output_tokens := 31, start_time := -1, completion_time := -1 })] }

/-- Simulator state after 1 loop steps, bisection iteration 2. -/
def cseS2_1 : SimState :=
  { devices := [{ id := 0, ttft_ms := 1000, output_tokens_per_sec := 1, is_busy := true, current_request := some 0, total_busy_time := 32 }]
    events := [{ timestamp := 1/500, type := "REQUEST_ARRIVAL", request_id := 1, device_id := none }, { timestamp := 32001/1000, type := "DEVICE_FREE", request_id := 0, device_id := some 0 }]
    current_time := 1/1000
    waiting_queue := []
    completed_requests := []
    requests_map := [(0, { id := 0, arrival_time := 1/1000, input_tokens := 128, output_tokens := 31, start_time := 1/1000, completion_time := -1 }), (1, { id := 1, arrival_time := 1/500, input_tokens := 128, output_tokens := 31, start_time := -1, completion_time := -1 }), (0, { id := 0, arrival_time := 1/1000, input_tokens := 128, output_tokens := 31, start_time := -1, completion_time := -1 })] }

/-- Simulator state after 2 loop steps, bisection iteration 2. -/
def cseS2_2 : SimState :=
  { devices := [{ id := 0, ttft_ms := 1000, output_tokens_per_sec := 1, is_busy := true, current_request := some 0, total_busy_time := 32 }]
    events := [{ timestamp := 32001/1000, type := "DEVICE_FREE", request_id := 0, device_id := some 0 }]
    current_time := 1/500
    waiting_queue := [{ id := 1, arrival_time := 1/500, input_tokens := 128, output_tokens := 31, start_time := -1, completion_time := -1 }]
    completed_requests := []
    requests_map := [(0, { id := 0, arrival_time := 1/1000, input_tokens := 128, output_tokens := 31, start_time := 1/1000, completion_time := -1 }), (1, { id := 1, arrival_time := 1/500, input_tokens := 128, output_tokens := 31, start_time := -1, completion_time := -1 }), (0, { id := 0, arrival_time := 1/1000, input_tokens := 128, output_tokens := 31, start_time := -1, completion_time := -1 })] }

/-- Simulator state after 3 loop steps, bisection iteration 2. -/
def cseS2_3 : SimState :=
  { devices := [{ id := 0, ttft_ms := 1000, output_tokens_per_sec := 1, is_busy := true, current_request := some 1, total_busy_time := 64 }]
    events := [{ timestamp := 64001/1000, type := "DEVICE_FREE", request_id := 1, device_id := some 0 }]
    current_time := 32001/1000
    waiting_queue := []
    completed_requests := [{ id := 0, arrival_time := 1/1000, input_tokens := 128, output_tokens := 31, start_time := 1/1000, completion_time := 32001/1000 }]
    requests_map := [(1, { id := 1, arrival_time := 1/500, input_tokens := 128, output_tokens := 31, start_time := 32001/1000, completion_time := -1 }), (0, { id := 0, arrival_time := 1/1000, input_tokens := 128, output_tokens := 31, start_time := 1/1000, completion_time := 32001/1000 }), (0, { id := 0, arrival_time := 1/1000, input_tokens := 128, output_tokens := 31, start_time := 1/1000, completion_time := -1 }), (1, { id := 1, arrival_time := 1/500, input_tokens := 128, output_tokens := 31, start_time := -1, completion_time := -1 }), (0, { id := 0, arrival_time := 1/1000, input_tokens := 128, output_tokens := 31, start_time := -1, completion_time := -1 })] }

/-- Simulator state after 4 loop steps, bisection iteration 2. -/
def cseS2_4 : SimState :=
  { devices := [{ id := 0, ttft_ms := 1000, output_tokens_per_sec := 1, is_busy := false, current_request := none, total_busy_time := 64 }]
    events := []
    current_time := 64001/1000
    waiting_queue := []
    completed_requests := [{ id := 0, arrival_time := 1/1000, input_tokens := 128, output_tokens := 31, start_time := 1/1000, completion_time := 32001/1000 }, { id := 1, arrival_time := 1/500, input_tokens := 128, output_tokens := 31, start_time := 32001/1000, completion_time := 64001/1000 }]
    requests_map := [(1, { id := 1, arrival_time := 1/500, input_tokens := 128, output_tokens := 31, start_time := 32001/1000, completion_time := 64001/1000 }), (1, { id := 1, arrival_time := 1/500, input_tokens := 128, output_tokens := 31, start_time := 32001/1000, completion_time := -1 }), (0, { id := 0, arrival_time := 1/1000, input_tokens := 128, output_tokens := 31, start_time := 1/1000, completion_time := 32001/1000 }), (0, { id := 0, arrival_time := 1/1000, input_tokens := 128, output_tokens := 31, start_time := 1/1000, completion_time := -1 }), (1, { id := 1, arrival_time := 1/500, input_tokens := 128, output_tokens := 31, start_time := -1, completion_time := -1 }), (0, { id := 0, arrival_time := 1/1000, input_tokens := 128, output_tokens := 31, start_time := -1, completion_time := -1 })] }

/-- Request 0 of bisection iteration 3 of the concrete search. -/
def cseR3_0 : Request := { id := 0, arrival_time := 1/1000, input_tokens := 128, output_tokens := 31, start_time := -1, completion_time := -1 }

/-- Request 1 of bisection iteration 3 of the concrete search. -/
def cseR3_1 : Request := { id := 1, arrival_time := 1/500, input_tokens := 128, output_tokens := 31, start_time := -1, completion_time := -1 }

/-- Simulator state after 0 loop steps, bisection iteration 3. -/
def cseS3_0 : SimState :=
  { devices := [{ id := 0, ttft_ms := 1000, output_tokens_per_sec := 1, is_busy := false, current_request := none, total_busy_time := 0 }]
    events := [{ timestamp := 1/1000, type := "REQUEST_ARRIVAL", request_id := 0, device_id := none }, { timestamp := 1/500, type := "REQUEST_ARRIVAL", request_id := 1, device_id := none }]
    current_time := 0
    waiting_queue := []
    completed_requests := []
    requests_map := [(1, { id := 1, arrival_time := 1/500, input_tokens := 128, output_tokens := 31, start_time := -1, completion_time := -1 }), (0, { id := 0, arrival_time := 1/1000, input_tokens := 128, output_tokens := 31, start_time := -1, completion_time := -1 })] }

/-- Simulator state after 1 loop steps, bisection iteration 3. -/
def cseS3_1 : SimState :=
  { devices := [{ id := 0, ttft_ms := 1000, output_tokens_per_sec := 1, is_busy := true, current_request := some 0, total_busy_time := 32 }]
    events := [{ timestamp := 1/500, type := "REQUEST_ARRIVAL", request_id := 1, device_id := none }, { timestamp := 32001/1000, type := "DEVICE_FREE", request_id := 0, device_id := some 0 }]
    current_time := 1/1000
    waiting_queue := []
    completed_requests := []
    requests_map := [(0, { id := 0, arrival_time := 1/1000, input_tokens := 128, output_tokens := 31, start_time := 1/1000, completion_time := -1 }), (1, { id := 1, arrival_time := 1/500, input_tokens := 128, output_tokens := 31, start_time := -1, completion_time := -1 }), (0, { id := 0, arrival_time := 1/1000, input_tokens := 128, output_tokens := 31, start_time := -1, completion_time := -1 })] }

/-- Simulator state after 2 loop steps, bisection iteration 3. -/
def cseS3_2 : SimState :=
  { devices := [{ id := 0, ttft_ms := 1000, output_tokens_per_sec := 1, is_busy := true, current_request := some 0, total_busy_time := 32 }]
    events := [{ timestamp := 32001/1000, type := "DEVICE_FREE", request_id := 0, device_id := some 0 }]
    current_time := 1/500
    waiting_queue := [{ id := 1, arrival_time := 1/500, input_tokens := 128, output_tokens := 31, start_time := -1, completion_time := -1 }]
    completed_requests := []
    requests_map := [(0, { id := 0, arrival_time := 1/1000, input_tokens := 128, output_tokens := 31, start_time := 1/1000, completion_time := -1 }), (1, { id := 1, arrival_time := 1/500, input_tokens := 128, output_tokens := 31, start_time := -1, completion_time := -1 }), (0, { id := 0, arrival_time := 1/1000, input_tokens := 128, output_tokens := 31, start_time := -1, completion_time := -1 })] }

/-- Simulator state after 3 loop steps, bisection iteration 3. -/
def cseS3_3 : SimState :=
  { devices := [{ id := 0, ttft_ms := 1000, output_tokens_per_sec := 1, is_busy := true, current_request := some 1, total_busy_time := 64 }]
    events := [{ timestamp := 64001/1000, type := "DEVICE_FREE", request_id := 1, device_id := some 0 }]
    current_time := 32001/1000
    waiting_queue := []
    completed_requests := [{ id := 0, arrival_time := 1/1000, input_tokens := 128, output_tokens := 31, start_time := 1/1000, completion_time := 32001/1000 }]
    requests_map := [(1, { id := 1, arrival_time := 1/500, input_tokens := 128, output_tokens := 31, start_time := 32001/1000, completion_time := -1 }), (0, { id := 0, arrival_time := 1/1000, input_tokens := 128, output_tokens := 31, start_time := 1/1000, completion_time := 32001/1000 }), (0, { id := 0, arrival_time := 1/1000, input_tokens := 128, output_tokens := 31, start_time := 1/1000, completion_time := -1 }), (1, { id := 1, arrival_time := 1/500, input_tokens := 128, output_tokens := 31, start_time := -1, completion_time := -1 }), (0, { id := 0, arrival_time := 1/1000, input_tokens := 128, output_tokens := 31, start_time := -1, completion_time := -1 })] }

/-- Simulator state after 4 loop steps, bisection iteration 3. -/
def cseS3_4 : SimState :=
  { devices := [{ id := 0, ttft_ms := 1000, output_tokens_per_sec := 1, is_busy := false, current_request := none, total_busy_time := 64 }]
    events := []
    current_time := 64001/1000
    waiting_queue := []
    completed_requests := [{ id := 0, arrival_time := 1/1000, input_tokens := 128, output_tokens := 31, start_time := 1/1000, completion_time := 32001/1000 }, { id := 1, arrival_time := 1/500, input_tokens := 128, output_tokens := 31, start_time := 32001/1000, completion_time := 64001/1000 }]
    requests_map := [(1, { id := 1, arrival_time := 1/500, input_tokens := 128, output_tokens := 31, start_time := 32001/1000, completion_time := 64001/1000 }), (1, { id := 1, arrival_time := 1/500, input_tokens := 128, output_tokens := 31, start_time := 32001/1000, completion_time := -1 }), (0, { id := 0, arrival_time := 1/1000, input_tokens := 128, output_tokens := 31, start_time := 1/1000, completion_time := 32001/1000 }), (0, { id := 0, arrival_time := 1/1000, input_tokens := 128, output_tokens := 31, start_time := 1/1000, completion_time := -1 }), (1, { id := 1, arrival_time := 1/500, input_tokens := 128, output_tokens := 31, start_time := -1, completion_time := -1 }), (0, { id := 0, arrival_time := 1/1000, input_tokens := 128, output_tokens := 31, start_time := -1, completion_time := -1 })] }

/-- Request 0 of bisection iteration 4 of the concrete search. -/
def cseR4_0 : Request := { id := 0, arrival_time := 1/1000, input_tokens := 128, output_tokens := 31, start_time := -1, completion_time := -1 }

/-- Request 1 of bisection iteration 4 of the concrete search. -/
def cseR4_1 : Request := { id := 1, arrival_time := 1/500, input_tokens := 128, output_tokens := 31, start_time := -1, completion_time := -1 }

/-- Simulator state after 0 loop steps, bisection iteration 4. -/
def cseS4_0 : SimState :=
  { devices := [{ id := 0, ttft_ms := 1000, output_tokens_per_sec := 1, is_busy := false, current_request := none, total_busy_time := 0 }]
    events := [{ timestamp := 1/1000, type := "REQUEST_ARRIVAL", request_id := 0, device_id := none }, { timestamp := 1/500, type := "REQUEST_ARRIVAL", request_id := 1, device_id := none }]
    current_time := 0
    waiting_queue := []
    completed_requests := []
    requests_map := [(1, { id := 1, arrival_time := 1/500, input_tokens := 128, output_tokens := 31, start_time := -1, completion_time := -1 }), (0, { id := 0, arrival_time := 1/1000, input_tokens := 128, output_tokens := 31, start_time := -1, completion_time := -1 })] }

/-- Simulator state after 1 loop steps, bisection iteration 4. -/
def cseS4_1 : SimState :=
  { devices := [{ id := 0, ttft_ms := 1000, output_tokens_per_sec := 1, is_busy := true, current_request := some 0, total_busy_time := 32 }]
    events := [{ timestamp := 1/500, type := "REQUEST_ARRIVAL", request_id := 1, device_id := none }, { timestamp := 32001/1000, type := "DEVICE_FREE", request_id := 0, device_id := some 0 }]
    current_time := 1/1000
    waiting_queue := []
    completed_requests := []
    requests_map := [(0, { id := 0, arrival_time := 1/1000, input_tokens := 128, output_tokens := 31, start_time := 1/1000, completion_time := -1 }), (1, { id := 1, arrival_time := 1/500, input_tokens := 128, output_tokens := 31, start_time := -1, completion_time := -1 }), (0, { id := 0, arrival_time := 1/1000, input_tokens := 128, output_tokens := 31, start_time := -1, completion_time := -1 })] }

/-- Simulator state after 2 loop steps, bisection iteration 4. -/
def cseS4_2 : SimState :=
  { devices := [{ id := 0, ttft_ms := 1000, output_tokens_per_sec := 1, is_busy := true, current_request := some 0, total_busy_time := 32 }]
    events := [{ timestamp := 32001/1000, type := "DEVICE_FREE", request_id := 0, device_id := some 0 }]
    current_time := 1/500
    waiting_queue := [{ id := 1, arrival_time := 1/500, input_tokens := 128, output_tokens := 31, start_time := -1, completion_time := -1 }]
    completed_requests := []
    requests_map := [(0, { id := 0, arrival_time := 1/1000, input_tokens := 128, output_tokens := 31, start_time := 1/1000, completion_time := -1 }), (1, { id := 1, arrival_time := 1/500, input_tokens := 128, output_tokens := 31, start_time := -1, completion_time := -1 }), (0, { id := 0, arrival_time := 1/1000, input_tokens := 128, output_tokens := 31, start_time := -1, completion_time := -1 })] }

/-- Simulator state after 3 loop steps, bisection iteration 4. -/
def cseS4_3 : SimState :=
  { devices := [{ id := 0, ttft_ms := 1000, output_tokens_per_sec := 1, is_busy := true, current_request := some 1, total_busy_time := 64 }]
    events := [{ timestamp := 64001/1000, type := "DEVICE_FREE", request_id := 1, device_id := some 0 }]
    current_time := 32001/1000
    waiting_queue := []
    completed_requests := [{ id := 0, arrival_time := 1/1000, input_tokens := 128, output_tokens := 31, start_time := 1/1000, completion_time := 32001/1000 }]
    requests_map := [(1, { id := 1, arrival_time := 1/500, input_tokens := 128, output_tokens := 31, start_time := 32001/1000, completion_time := -1 }), (0, { id := 0, arrival_time := 1/1000, input_tokens := 128, output_tokens := 31, start_time := 1/1000, completion_time := 32001/1000 }), (0, { id := 0, arrival_time := 1/1000, input_tokens := 128, output_tokens := 31, start_time := 1/1000, completion_time := -1 }), (1, { id := 1, arrival_time := 1/500, input_tokens := 128, output_tokens := 31, start_time := -1, completion_time := -1 }), (0, { id := 0, arrival_time := 1/1000, input_tokens := 128, output_tokens := 31, start_time := -1, completion_time := -1 })] }

/-- Simulator state after 4 loop steps, bisection iteration 4. -/
def cseS4_4 : SimState :=
  { devices := [{ id := 0, ttft_ms := 1000, output_tokens_per_sec := 1, is_busy := false, current_request := none, total_busy_time := 64 }]
    events := []
    current_time := 64001/1000
    waiting_queue := []
    completed_requests := [{ id := 0, arrival_time := 1/1000, input_tokens := 128, output_tokens := 31, start_time := 1/1000, completion_time := 32001/1000 }, { id := 1, arrival_time := 1/500, input_tokens := 128, output_tokens := 31, start_time := 32001/1000, completion_time := 64001/1000 }]
    requests_map := [(1, { id := 1, arrival_time := 1/500, input_tokens := 128, output_tokens := 31, start_time := 32001/1000, completion_time := 64001/1000 }), (1, { id := 1, arrival_time := 1/500, input_tokens := 128, output_tokens := 31, start_time := 32001/1000, completion_time := -1 }), (0, { id := 0, arrival_time := 1/1000, input_tokens := 128, output_tokens := 31, start_time := 1/1000, completion_time := 32001/1000 }), (0, { id := 0, arrival_time := 1/1000, input_tokens := 128, output_tokens := 31, start_time := 1/1000, completion_time := -1 }), (1, { id := 1, arrival_time := 1/500, input_tokens := 128, output_tokens := 31, start_time := -1, completion_time := -1 }), (0, { id := 0, arrival_time := 1/1000, input_tokens := 128, output_tokens := 31, start_time := -1, completion_time := -1 })] }

/-- Request 0 of bisection iteration 5 of the concrete search. -/
def cseR5_0 : Request := { id := 0, arrival_time := 1/1000, input_tokens := 128, output_tokens := 31, start_time := -1, completion_time := -1 }

/-- Simulator state after 0 loop steps, bisection iteration 5. -/
def cseS5_0 : SimState :=
  { devices := [{ id := 0, ttft_ms := 1000, output_tokens_per_sec := 1, is_busy := false, current_request := none, total_busy_time := 0 }]
    events := [{ timestamp := 1/1000, type := "REQUEST_ARRIVAL", request_id := 0, device_id := none }]
    current_time := 0
    waiting_queue := []
    completed_requests := []
    requests_map := [(0, { id := 0, arrival_time := 1/1000, input_tokens := 128, output_tokens := 31, start_time := -1, completion_time := -1 })] }

/-- Simulator state after 1 loop steps, bisection iteration 5. -/
def cseS5_1 : SimState :=
  { devices := [{ id := 0, ttft_ms := 1000, output_tokens_per_sec := 1, is_busy := true, current_request := some 0, total_busy_time := 32 }]
    events := [{ timestamp := 32001/1000, type := "DEVICE_FREE", request_id := 0, device_id := some 0 }]
    current_time := 1/1000
    waiting_queue := []
    completed_requests := []
    requests_map := [(0, { id := 0, arrival_time := 1/1000, input_tokens := 128, output_tokens := 31, start_time := 1/1000, completion_time := -1 }), (0, { id := 0, arrival_time := 1/1000, input_tokens := 128, output_tokens := 31, start_time := -1, completion_time := -1 })] }

/-- Simulator state after 2 loop steps, bisection iteration 5. -/
def cseS5_2 : SimState :=
  { devices := [{ id := 0, ttft_ms := 1000, output_tokens_per_sec := 1, is_busy := false, current_request := none, total_busy_time := 32 }]
    events := []
    current_time := 32001/1000
    waiting_queue := []
    completed_requests := [{ id := 0, arrival_time := 1/1000, input_tokens := 128, output_tokens := 31, start_time := 1/1000, completion_time := 32001/1000 }]
    requests_map := [(0, { id := 0, arrival_time := 1/1000, input_tokens := 128, output_tokens := 31, start_time := 1/1000, completion_time := 32001/1000 }), (0, { id := 0, arrival_time := 1/1000, input_tokens := 128, output_tokens := 31, start_time := 1/1000, completion_time := -1 }), (0, { id := 0, arrival_time := 1/1000, input_tokens := 128, output_tokens := 31, start_time := -1, completion_time := -1 })] }

/-- Request 0 of bisection iteration 6 of the concrete search. -/
def cseR6_0 : Request := { id := 0, arrival_time := 1/1000, input_tokens := 128, output_tokens := 31, start_time := -1, completion_time := -1 }

/-- Simulator state after 0 loop steps, bisection iteration 6. -/
def cseS6_0 : SimState :=
  { devices := [{ id := 0, ttft_ms := 1000, output_tokens_per_sec := 1, is_busy := false, current_request := none, total_busy_time := 0 }]
    events := [{ timestamp := 1/1000, type := "REQUEST_ARRIVAL", request_id := 0, device_id := none }]
    current_time := 0
    waiting_queue := []
    completed_requests := []
    requests_map := [(0, { id := 0, arrival_time := 1/1000, input_tokens := 128, output_tokens := 31, start_time := -1, completion_time := -1 })] }

/-- Simulator state after 1 loop steps, bisection iteration 6. -/
def cseS6_1 : SimState :=
  { devices := [{ id := 0, ttft_ms := 1000, output_tokens_per_sec := 1, is_busy := true, current_request := some 0, total_busy_time := 32 }]
    events := [{ timestamp := 32001/1000, type := "DEVICE_FREE", request_id := 0, device_id := some 0 }]
    current_time := 1/1000
    waiting_queue := []
    completed_requests := []
    requests_map := [(0, { id := 0, arrival_time := 1/1000, input_tokens := 128, output_tokens := 31, start_time := 1/1000, completion_time := -1 }), (0, { id := 0, arrival_time := 1/1000, input_tokens := 128, output_tokens := 31, start_time := -1, completion_time := -1 })] }

/-- Simulator state after 2 loop steps, bisection iteration 6. -/
def cseS6_2 : SimState :=
  { devices := [{ id := 0, ttft_ms := 1000, output_tokens_per_sec := 1, is_busy := false, current_request := none, total_busy_time := 32 }]
    events := []
    current_time := 32001/1000
    waiting_queue := []
    completed_requests := [{ id := 0, arrival_time := 1/1000, input_tokens := 128, output_tokens := 31, start_time := 1/1000, completion_time := 32001/1000 }]
    requests_map := [(0, { id := 0, arrival_time := 1/1000, input_tokens := 128, output_tokens := 31, start_time := 1/1000, completion_time := 32001/1000 }), (0, { id := 0, arrival_time := 1/1000, input_tokens := 128, output_tokens := 31, start_time := 1/1000, completion_time := -1 }), (0, { id := 0, arrival_time := 1/1000, input_tokens := 128, output_tokens := 31, start_time := -1, completion_time := -1 })] }

/-- Request 0 of bisection iteration 7 of the concrete search. -/
def cseR7_0 : Request := { id := 0, arrival_time := 1/1000, input_tokens := 128, output_tokens := 31, start_time := -1, completion_time := -1 }

/-- Simulator state after 0 loop steps, bisection iteration 7. -/
def cseS7_0 : SimState :=
  { devices := [{ id := 0, ttft_ms := 1000, output_tokens_per_sec := 1, is_busy := false, current_request := none, total_busy_time := 0 }]
    events := [{ timestamp := 1/1000, type := "REQUEST_ARRIVAL", request_id := 0, device_id := none }]
    current_time := 0
    waiting_queue := []
    completed_requests := []
    requests_map := [(0, { id := 0, arrival_time := 1/1000, input_tokens := 128, output_tokens := 31, start_time := -1, completion_time := -1 })] }

/-- Simulator state after 1 loop steps, bisection iteration 7. -/
def cseS7_1 : SimState :=
  { devices := [{ id := 0, ttft_ms := 1000, output_tokens_per_sec := 1, is_busy := true, current_request := some 0, total_busy_time := 32 }]
    events := [{ timestamp := 32001/1000, type := "DEVICE_FREE", request_id := 0, device_id := some 0 }]
    current_time := 1/1000
    waiting_queue := []
    completed_requests := []
    requests_map := [(0, { id := 0, arrival_time := 1/1000, input_tokens := 128, output_tokens := 31, start_time := 1/1000, completion_time := -1 }), (0, { id := 0, arrival_time := 1/1000, input_tokens := 128, output_tokens := 31, start_time := -1, completion_time := -1 })] }

/-- Simulator state after 2 loop steps, bisection iteration 7. -/
def cseS7_2 : SimState :=
  { devices := [{ id := 0, ttft_ms := 1000, output_tokens_per_sec := 1, is_busy := false, current_request := none, total_busy_time := 32 }]
    events := []
    current_time := 32001/1000
    waiting_queue := []
    completed_requests := [{ id := 0, arrival_time := 1/1000, input_tokens := 128, output_tokens := 31, start_time := 1/1000, completion_time := 32001/1000 }]
    requests_map := [(0, { id := 0, arrival_time := 1/1000, input_tokens := 128, output_tokens := 31, start_time := 1/1000, completion_time := 32001/1000 }), (0, { id := 0, arrival_time := 1/1000, input_tokens := 128, output_tokens := 31, start_time := 1/1000, completion_time := -1 }), (0, { id := 0, arrival_time := 1/1000, input_tokens := 128, output_tokens := 31, start_time := -1, completion_time := -1 })] }

/-- Request 0 of bisection iteration 8 of the concrete search. -/
def cseR8_0 : Request := { id := 0, arrival_time := 1/1000, input_tokens := 128, output_tokens := 31, start_time := -1, completion_time := -1 }

/-- Simulator state after 0 loop steps, bisection iteration 8. -/
def cseS8_0 : SimState :=
  { devices := [{ id := 0, ttft_ms := 1000, output_tokens_per_sec := 1, is_busy := false, current_request := none, total_busy_time := 0 }]
    events := [{ timestamp := 1/1000, type := "REQUEST_ARRIVAL", request_id := 0, device_id := none }]
    current_time := 0
    waiting_queue := []
    completed_requests := []
    requests_map := [(0, { id := 0, arrival_time := 1/1000, input_tokens := 128, output_tokens := 31, start_time := -1, completion_time := -1 })] }

/-- Simulator state after 1 loop steps, bisection iteration 8. -/
def cseS8_1 : SimState :=
  { devices := [{ id := 0, ttft_ms := 1000, output_tokens_per_sec := 1, is_busy := true, current_request := some 0, total_busy_time := 32 }]
    events := [{ timestamp := 32001/1000, type := "DEVICE_FREE", request_id := 0, device_id := some 0 }]
    current_time := 1/1000
    waiting_queue := []
    completed_requests := []
    requests_map := [(0, { id := 0, arrival_time := 1/1000, input_tokens := 128, output_tokens := 31, start_time := 1/1000, completion_time := -1 }), (0, { id := 0, arrival_time := 1/1000, input_tokens := 128, output_tokens := 31, start_time := -1, completion_time := -1 })] }

/-- Simulator state after 2 loop steps, bisection iteration 8. -/
def cseS8_2 : SimState :=
  { devices := [{ id := 0, ttft_ms := 1000, output_tokens_per_sec := 1, is_busy := false, current_request := none, total_busy_time := 32 }]
    events := []
    current_time := 32001/1000
    waiting_queue := []
    completed_requests := [{ id := 0, arrival_time := 1/1000, input_tokens := 128, output_tokens := 31, start_time := 1/1000, completion_time := 32001/1000 }]
    requests_map := [(0, { id := 0, arrival_time := 1/1000, input_tokens := 128, output_tokens := 31, start_time := 1/1000, completion_time := 32001/1000 }), (0, { id := 0, arrival_time := 1/1000, input_tokens := 128, output_tokens := 31, start_time := 1/1000, completion_time := -1 }), (0, { id := 0, arrival_time := 1/1000, input_tokens := 128, output_tokens := 31, start_time := -1, completion_time := -1 })] }

/-- Request 0 of bisection iteration 9 of the concrete search. -/
def cseR9_0 : Request := { id := 0, arrival_time := 1/1000, input_tokens := 128, output_tokens := 31, start_time := -1, completion_time := -1 }

/-- Simulator state after 0 loop steps, bisection iteration 9. -/
def cseS9_0 : SimState :=
  { devices := [{ id := 0, ttft_ms := 1000, output_tokens_per_sec := 1, is_busy := false, current_request := none, total_busy_time := 0 }]
    events := [{ timestamp := 1/1000, type := "REQUEST_ARRIVAL", request_id := 0, device_id := none }]
    current_time := 0
    waiting_queue := []
    completed_requests := []
    requests_map := [(0, { id := 0, arrival_time := 1/1000, input_tokens := 128, output_tokens := 31, start_time := -1, completion_time := -1 })] }

/-- Simulator state after 1 loop steps, bisection iteration 9. -/
def cseS9_1 : SimState :=
  { devices := [{ id := 0, ttft_ms := 1000, output_tokens_per_sec := 1, is_busy := true, current_request := some 0, total_busy_time := 32 }]
    events := [{ timestamp := 32001/1000, type := "DEVICE_FREE", request_id := 0, device_id := some 0 }]
    current_time := 1/1000
    waiting_queue := []
    completed_requests := []
    requests_map := [(0, { id := 0, arrival_time := 1/1000, input_tokens := 128, output_tokens := 31, start_time := 1/1000, completion_time := -1 }), (0, { id := 0, arrival_time := 1/1000, input_tokens := 128, output_tokens := 31, start_time := -1, completion_time := -1 })] }

/-- Simulator state after 2 loop steps, bisection iteration 9. -/
def cseS9_2 : SimState :=
  { devices := [{ id := 0, ttft_ms := 1000, output_tokens_per_sec := 1, is_busy := false, current_request := none, total_busy_time := 32 }]
    events := []
    current_time := 32001/1000
    waiting_queue := []
    completed_requests := [{ id := 0, arrival_time := 1/1000, input_tokens := 128, output_tokens := 31, start_time := 1/1000, completion_time := 32001/1000 }]
    requests_map := [(0, { id := 0, arrival_time := 1/1000, input_tokens := 128, output_tokens := 31, start_time := 1/1000, completion_time := 32001/1000 }), (0, { id := 0, arrival_time := 1/1000, input_tokens := 128, output_tokens := 31, start_time := 1/1000, completion_time := -1 }), (0, { id := 0, arrival_time := 1/1000, input_tokens := 128, output_tokens := 31, start_time := -1, completion_time := -1 })] }

/-- Request 0 of bisection iteration 10 of the concrete search. -/
def cseR10_0 : Request := { id := 0, arrival_time := 1/1000, input_tokens := 128, output_tokens := 31, start_time := -1, completion_time := -1 }

/-- Simulator state after 0 loop steps, bisection iteration 10. -/
def cseS10_0 : SimState :=
  { devices := [{ id := 0, ttft_ms := 1000, output_tokens_per_sec := 1, is_busy := false, current_request := none, total_busy_time := 0 }]
    events := [{ timestamp := 1/1000, type := "REQUEST_ARRIVAL", request_id := 0, device_id := none }]
    current_time := 0
    waiting_queue := []
    completed_requests := []
    requests_map := [(0, { id := 0, arrival_time := 1/1000, input_tokens := 128, output_tokens := 31, start_time := -1, completion_time := -1 })] }

/-- Simulator state after 1 loop steps, bisection iteration 10. -/
def cseS10_1 : SimState :=
  { devices := [{ id := 0, ttft_ms := 1000, output_tokens_per_sec := 1, is_busy := true, current_request := some 0, total_busy_time := 32 }]
    events := [{ timestamp := 32001/1000, type := "DEVICE_FREE", request_id := 0, device_id := some 0 }]
    current_time := 1/1000
    waiting_queue := []
    completed_requests := []
    requests_map := [(0, { id := 0, arrival_time := 1/1000, input_tokens := 128, output_tokens := 31, start_time := 1/1000, completion_time := -1 }), (0, { id := 0, arrival_time := 1/1000, input_tokens := 128, output_tokens := 31, start_time := -1, completion_time := -1 })] }

/-- Simulator state after 2 loop steps, bisection iteration 10. -/
def cseS10_2 : SimState :=
  { devices := [{ id := 0, ttft_ms := 1000, output_tokens_per_sec := 1, is_busy := false, current_request := none, total_busy_time := 32 }]
    events := []
    current_time := 32001/1000
    waiting_queue := []
    completed_requests := [{ id := 0, arrival_time := 1/1000, input_tokens := 128, output_tokens := 31, start_time := 1/1000, completion_time := 32001/1000 }]
    requests_map := [(0, { id := 0, arrival_time := 1/1000, input_tokens := 128, output_tokens := 31, start_time := 1/1000, completion_time := 32001/1000 }), (0, { id := 0, arrival_time := 1/1000, input_tokens := 128, output_tokens := 31, start_time := 1/1000, completion_time := -1 }), (0, { id := 0, arrival_time := 1/1000, input_tokens := 128, output_tokens := 31, start_time := -1, completion_time := -1 })] }


/-! ## List index helpers -/

theorem getD_set_self {α : Type} : ∀ (l : List α) (i : ℕ), i < l.length →
    ∀ (a d : α), (l.set i a).getD i d = a
  | [], i, h, a, d => by simp at h
  | x :: xs, 0, h, a, d => by simp
  | x :: xs, i + 1, h, a, d => by
    simpa using getD_set_self xs i (by simpa using h) a d

theorem getD_set_ne {α : Type} : ∀ (l : List α) (i j : ℕ), i ≠ j →
    ∀ (a d : α), (l.set i a).getD j d = l.getD j d
  | [], i, j, h, a, d => by simp
  | x :: xs, 0, 0, h, a, d => absurd rfl h
  | x :: xs, 0, j + 1, h, a, d => by simp
  | x :: xs, i + 1, 0, h, a, d => by simp
  | x :: xs, i + 1, j + 1, h, a, d => by
    simpa using getD_set_ne xs i j (by omega) a d

theorem getD_append_left {α : Type} : ∀ (l l' : List α) (i : ℕ), i < l.length →
    ∀ (d : α), (l ++ l').getD i d = l.getD i d
  | [], l', i, h, d => by simp at h
  | x :: xs, l', 0, h, d => by simp
  | x :: xs, l', i + 1, h, d => by
    simpa using getD_append_left xs l' i (by simpa using h) d

theorem getD_mem {α : Type} : ∀ (l : List α) (i : ℕ), i < l.length →
    ∀ (d : α), l.getD i d ∈ l
  | [], i, h, d => by simp at h
  | x :: xs, 0, h, d => by simp
  | x :: xs, i + 1, h, d => by
    simpa using Or.inr (getD_mem xs i (by simpa using h) d)

theorem mem_of_mem_set {α : Type} : ∀ (l : List α) (i : ℕ) (a x : α),
    x ∈ l.set i a → x = a ∨ x ∈ l
  | [], i, a, x, h => by simp at h
  | y :: ys, 0, a, x, h => by
    rcases (by simpa using h : x = a ∨ x ∈ ys) with h' | h'
    · exact Or.inl h'
    · exact Or.inr (List.mem_cons_of_mem _ h')
  | y :: ys, i + 1, a, x, h => by
    rcases (by simpa using h : x = y ∨ x ∈ ys.set i a) with h' | h'
    · exact Or.inr (by simp [h'])
    · rcases mem_of_mem_set ys i a x h' with h'' | h''
      · exact Or.inl h''
      · exact Or.inr (List.mem_cons_of_mem _ h'')

theorem set_length_append {α : Type} : ∀ (l : List α) (a b : α),
    (l ++ [a]).set l.length b = l ++ [b]
  | [], a, b => by simp
  | x :: xs, a, b => by simpa using set_length_append xs a b

/-- Extracting slot `k` to the front and overwriting it is a permutation of
overwriting the front element into slot `k`'s list. -/
theorem perm_getD_cons_set {α : Type} : ∀ (t : List α) (k : ℕ), k < t.length →
    ∀ (d x : α), (t.getD k d :: t.set k x).Perm (x :: t)
  | [], k, h, d, x => by simp at h
  | b :: s, 0, h, d, x => by simpa using List.Perm.swap x b s
  | b :: s, k + 1, h, d, x => by
    have ih := perm_getD_cons_set s k (by simpa using h) d x
    have h1 : (s.getD k d :: b :: s.set k x).Perm (b :: s.getD k d :: s.set k x) :=
      List.Perm.swap b (s.getD k d) (s.set k x)
    have h2 : (b :: s.getD k d :: s.set k x).Perm (b :: x :: s) := List.Perm.cons b ih
    have h3 : (b :: x :: s).Perm (x :: b :: s) := List.Perm.swap x b s
    simpa using h1.trans (h2.trans h3)

/-- Swapping which of two values lands in the front versus in slot `k`. -/
theorem perm_cons_set_comm {α : Type} : ∀ (t : List α) (k : ℕ), k < t.length →
    ∀ (a x : α), (x :: t.set k a).Perm (a :: t.set k x)
  | [], k, h, a, x => by simp at h
  | b :: s, 0, h, a, x => by simpa using List.Perm.swap a x s
  | b :: s, k + 1, h, a, x => by
    have ih := perm_cons_set_comm s k (by simpa using h) a x
    have h1 : (x :: b :: s.set k a).Perm (b :: x :: s.set k a) :=
      List.Perm.swap b x (s.set k a)
    have h2 : (b :: x :: s.set k a).Perm (b :: a :: s.set k x) := List.Perm.cons b ih
    have h3 : (b :: a :: s.set k x).Perm (a :: b :: s.set k x) :=
      List.Perm.swap a b (s.set k x)
    simpa using h1.trans (h2.trans h3)

/-- Writing slot `j`'s value into slot `i` and a new value into slot `j` is,
up to permutation, just writing the new value into slot `i`. -/
theorem perm_set_set {α : Type} : ∀ (l : List α) (i j : ℕ), i < l.length →
    j < l.length → i ≠ j → ∀ (x d : α),
    ((l.set i (l.getD j d)).set j x).Perm (l.set i x)
  | [], i, j, hi, hj, hne, x, d => by simp at hi
  | b :: s, 0, 0, hi, hj, hne, x, d => absurd rfl hne
  | b :: s, 0, j + 1, hi, hj, hne, x, d => by
    simpa using perm_getD_cons_set s j (by simpa using hj) d x
  | b :: s, i + 1, 0, hi, hj, hne, x, d => by
    simpa using perm_cons_set_comm s i (by simpa using hi) b x
  | b :: s, i + 1, j + 1, hi, hj, hne, x, d => by
    have ih := perm_set_set s i j (by simpa using hi) (by simpa using hj)
      (by omega) x d
    simpa using List.Perm.cons b ih

/-! ## Permutation facts for the heapq operations -/

theorem siftdownAux_perm (newitem : Event) :
    ∀ (fuel : ℕ) (heap : List Event) (pos : ℕ), pos < heap.length →
      (siftdownAux 0 newitem fuel heap pos).Perm (heap.set pos newitem)
  | 0, heap, pos, h => by simp [siftdownAux]
  | fuel + 1, heap, pos, h => by
    unfold siftdownAux
    by_cases hpos : 0 < pos
    · simp only [hpos, if_true]
      by_cases hlt : newitem.timestamp < (heap.getD ((pos - 1) / 2) default).timestamp
      · simp only [hlt, if_true]
        have hpar : (pos - 1) / 2 < pos := by
          have := Nat.div_le_self (pos - 1) 2
          omega
        have ih := siftdownAux_perm newitem fuel
          (heap.set pos (heap.getD ((pos - 1) / 2) default)) ((pos - 1) / 2)
          (by simpa using lt_trans hpar h)
        refine ih.trans ?_
        exact perm_set_set heap pos ((pos - 1) / 2) h (lt_trans hpar h)
          (by omega) newitem default
      · rw [if_neg hlt]
    · rw [if_neg hpos]

theorem siftupAux_perm (newitem : Event) :
    ∀ (fuel : ℕ) (heap : List Event) (pos : ℕ), pos < heap.length →
      (siftupAux 0 newitem fuel heap pos).Perm (heap.set pos newitem)
  | 0, heap, pos, h => siftdownAux_perm newitem pos heap pos h
  | fuel + 1, heap, pos, h => by
    unfold siftupAux
    by_cases hchild : 2 * pos + 1 < heap.length
    · simp only [hchild, if_true]
      by_cases hsel : 2 * pos + 1 + 1 < heap.length ∧
          ¬ (heap.getD (2 * pos + 1) default).timestamp <
            (heap.getD (2 * pos + 1 + 1) default).timestamp
      · simp only [hsel, if_true]
        have hm : 2 * pos + 1 + 1 < heap.length := hsel.1
        have ih := siftupAux_perm newitem fuel
          (heap.set pos (heap.getD (2 * pos + 1 + 1) default)) (2 * pos + 1 + 1)
          (by simpa using hm)
        refine ih.trans ?_
        exact perm_set_set heap pos (2 * pos + 1 + 1) h hm (by omega) newitem default
      · simp only [hsel, if_false]
        have ih := siftupAux_perm newitem fuel
          (heap.set pos (heap.getD (2 * pos + 1) default)) (2 * pos + 1)
          (by simpa using hchild)
        refine ih.trans ?_
        exact perm_set_set heap pos (2 * pos + 1) h hchild (by omega) newitem default
    · simp only [hchild, if_false]
      exact siftdownAux_perm newitem pos heap pos h

theorem heappush_perm (heap : List Event) (item : Event) :
    (heappush heap item).Perm (item :: heap) := by
  unfold heappush siftdown
  have h := siftdownAux_perm item heap.length (heap ++ [item]) heap.length (by simp)
  rw [set_length_append] at h
  exact h.trans (List.perm_append_comm.trans (by simp))

theorem heappop_perm (heap : List Event) (e : Event) (rest : List Event)
    (h : heappop heap = some (e, rest)) : heap.Perm (e :: rest) := by
  unfold heappop at h
  cases hlast : heap.getLast? with
  | none => rw [hlast] at h; exact absurd h (by simp)
  | some lastelt =>
    rw [hlast] at h
    have hfull : heap.dropLast ++ [lastelt] = heap :=
      List.dropLast_append_getLast? lastelt hlast
    cases hdrop : heap.dropLast with
    | nil =>
      rw [hdrop] at h
      simp only [Option.some.injEq, Prod.mk.injEq] at h
      rw [hdrop] at hfull
      simp only [List.nil_append] at hfull
      rw [← hfull, ← h.1, ← h.2]
    | cons r0 rtail =>
      rw [hdrop] at h
      simp only [Option.some.injEq, Prod.mk.injEq] at h
      have hperm : (siftup 0 lastelt (lastelt :: rtail) 0).Perm (lastelt :: rtail) := by
        have := siftupAux_perm lastelt ((lastelt :: rtail).length - 0)
          (lastelt :: rtail) 0 (by simp)
        have h00 := (siftupAux_perm lastelt ((lastelt :: rtail).length - 0)
          (lastelt :: rtail) 0 (by simp)).trans
          (by rw [List.set_cons_zero] : ((lastelt :: rtail).set 0 lastelt).Perm
            (lastelt :: rtail))
        simpa [siftup] using h00
      rw [hdrop] at hfull
      have hstep : (rtail ++ [lastelt]).Perm (lastelt :: rtail) :=
        List.perm_append_comm.trans (by simp)
      have hheap : heap.Perm (r0 :: lastelt :: rtail) := by
        rw [← hfull]
        exact List.Perm.cons r0 hstep
      rw [← h.1, ← h.2]
      exact hheap.trans (List.Perm.cons r0 hperm.symm)

theorem heappop_eq_none_iff (heap : List Event) : heappop heap = none ↔ heap = [] := by
  unfold heappop
  cases hlast : heap.getLast? with
  | none => simpa using List.getLast?_eq_none_iff.mp hlast
  | some lastelt =>
    constructor
    · intro h
      cases hdrop : heap.dropLast <;> rw [hdrop] at h <;> exact absurd h (by simp)
    · intro h; subst h; simp at hlast

/-! ## Heap-shape preservation for the heapq operations -/

theorem tsAt_set_self (heap : List Event) (pos : ℕ) (a : Event)
    (h : pos < heap.length) : tsAt (heap.set pos a) pos = a.timestamp := by
  rw [tsAt, getD_set_self heap pos h]

theorem tsAt_set_ne (heap : List Event) (pos j : ℕ) (a : Event)
    (h : pos ≠ j) : tsAt (heap.set pos a) j = tsAt heap j := by
  rw [tsAt, getD_set_ne heap pos j h, tsAt]

theorem getD_eq_get {α : Type} : ∀ (l : List α) (i : ℕ) (h : i < l.length) (d : α),
    l.getD i d = l.get ⟨i, h⟩
  | [], i, h, d => by simp at h
  | x :: xs, 0, h, d => by simp
  | x :: xs, i + 1, h, d => by
    simpa using getD_eq_get xs i (by simpa using h) d

theorem parentIdx_lt {i : ℕ} (h : 0 < i) : parentIdx i < i := by
  have := Nat.div_le_self (i - 1) 2
  unfold parentIdx
  omega

/-- Placing `newitem` into the hole keeps the heap shape, provided all other
edges hold, the hole's children dominate `newitem`, and the hole's parent is
at most `newitem`. -/
theorem set_newitem_isHeap (newitem : Event) (heap : List Event) (pos : ℕ)
    (hpos : pos < heap.length)
    (hI1 : ∀ i, 0 < i → i < heap.length → i ≠ pos →
      tsAt heap (parentIdx i) ≤ tsAt heap i)
    (hI2 : ∀ c, 0 < c → c < heap.length → parentIdx c = pos →
      newitem.timestamp ≤ tsAt heap c)
    (hparent : 0 < pos → tsAt heap (parentIdx pos) ≤ newitem.timestamp) :
    IsHeap (heap.set pos newitem) := by
  intro i hi hilen
  rw [List.length_set] at hilen
  by_cases hip : i = pos
  · subst hip
    have hne : i ≠ parentIdx i := (parentIdx_lt hi).ne'
    rw [tsAt_set_ne _ _ _ _ hne, tsAt_set_self _ _ _ hpos]
    exact hparent hi
  · rw [tsAt_set_ne _ _ _ _ (Ne.symm hip)]
    by_cases hpi : parentIdx i = pos
    · rw [← hpi, tsAt_set_self]
      · exact hI2 i hi hilen hpi
      · rw [hpi]; exact hpos
    · rw [tsAt_set_ne _ _ _ _ fun hh => hpi hh.symm]
      exact hI1 i hi hilen hip

theorem siftdownAux_isHeap (newitem : Event) :
    ∀ (fuel : ℕ) (heap : List Event) (pos : ℕ),
      pos ≤ fuel → pos < heap.length →
      (∀ i, 0 < i → i < heap.length → i ≠ pos →
        tsAt heap (parentIdx i) ≤ tsAt heap i) →
      (∀ c, 0 < c → c < heap.length → parentIdx c = pos →
        newitem.timestamp ≤ tsAt heap c) →
      (∀ c, 0 < c → c < heap.length → parentIdx c = pos →
        tsAt heap (parentIdx pos) ≤ tsAt heap c) →
      IsHeap (siftdownAux 0 newitem fuel heap pos)
  | 0, heap, pos, hfuel, hpos, hI1, hI2, hI4 => by
    have hp0 : pos = 0 := by omega
    subst hp0
    simpa [siftdownAux] using
      set_newitem_isHeap newitem heap 0 hpos hI1 hI2 (by omega)
  | fuel + 1, heap, pos, hfuel, hpos, hI1, hI2, hI4 => by
    unfold siftdownAux
    by_cases hp : 0 < pos
    · rw [if_pos hp]
      set q := (pos - 1) / 2 with hq
      have hqp : q < pos := parentIdx_lt hp
      have hqlen : q < heap.length := lt_trans hqp hpos
      have hqpar : parentIdx pos = q := rfl
      by_cases hlt : newitem.timestamp < (heap.getD q default).timestamp
      · rw [if_pos hlt]
        have hts : (heap.getD q default).timestamp = tsAt heap q := rfl
        apply siftdownAux_isHeap newitem fuel _ q (by omega)
          (by simpa using hqlen)
        · -- I1 for the shifted configuration
          intro i hi hilen hiq
          rw [List.length_set] at hilen
          by_cases hip : i = pos
          · subst hip
            rw [hqpar, tsAt_set_ne _ _ _ _ (Ne.symm (ne_of_lt hqp)),
              tsAt_set_self _ _ _ hpos]
            exact le_of_eq hts.symm
          · by_cases hpi : parentIdx i = pos
            · rw [hpi, tsAt_set_self _ _ _ hpos, tsAt_set_ne _ _ _ _ (Ne.symm hip)]
              rw [hts]
              exact hI4 i hi hilen hpi
            · rw [tsAt_set_ne _ _ _ _ fun hh => hpi hh.symm,
                tsAt_set_ne _ _ _ _ (Ne.symm hip)]
              exact hI1 i hi hilen hip
        · -- I2 for the shifted configuration
          intro c hc hclen hcq
          rw [List.length_set] at hclen
          by_cases hcp : c = pos
          · subst hcp
            rw [tsAt_set_self _ _ _ hpos]
            exact le_of_lt hlt
          · rw [tsAt_set_ne _ _ _ _ (Ne.symm hcp)]
            refine le_trans (le_of_lt hlt) ?_
            rw [hts, ← hcq]
            exact hI1 c hc hclen hcp
        · -- I4 for the shifted configuration
          intro c hc hclen hcq
          rw [List.length_set] at hclen
          have hqq : parentIdx q ≤ q := by
            have := Nat.div_le_self (q - 1) 2
            unfold parentIdx
            omega
          have hqqp : parentIdx q ≠ pos := by omega
          rw [tsAt_set_ne _ _ _ _ fun hh => hqqp hh.symm]
          by_cases hcp : c = pos
          · subst hcp
            rw [tsAt_set_self _ _ _ hpos, hts]
            rcases Nat.eq_zero_or_pos q with hq0 | hq0
            · rw [hq0]
              have : parentIdx 0 = 0 := rfl
              rw [this]
            · exact hI1 q hq0 hqlen (ne_of_lt hqp)
          · rw [tsAt_set_ne _ _ _ _ (Ne.symm hcp)]
            have h1 : tsAt heap q ≤ tsAt heap c := by
              rw [← hcq]; exact hI1 c hc hclen hcp
            rcases Nat.eq_zero_or_pos q with hq0 | hq0
            · rw [hq0]
              have h00 : parentIdx 0 = 0 := rfl
              rw [h00]
              rw [hq0] at h1
              exact h1
            · exact le_trans (hI1 q hq0 hqlen (ne_of_lt hqp)) h1
      · rw [if_neg hlt]
        exact set_newitem_isHeap newitem heap pos hpos hI1 hI2
          (fun _ => le_of_not_lt hlt)
    · rw [if_neg hp]
      exact set_newitem_isHeap newitem heap pos hpos hI1 hI2 (by omega)

theorem heappush_isHeap (heap : List Event) (item : Event) (h : IsHeap heap) :
    IsHeap (heappush heap item) := by
  unfold heappush siftdown
  apply siftdownAux_isHeap item heap.length (heap ++ [item]) heap.length le_rfl
    (by simp)
  · intro i hi hilen hine
    rw [List.length_append, List.length_singleton] at hilen
    have hi' : i < heap.length := by omega
    have hpi : parentIdx i < heap.length := lt_trans (parentIdx_lt hi) hi'
    rw [tsAt, tsAt, getD_append_left _ _ _ hi', getD_append_left _ _ _ hpi]
    exact h i hi hi'
  · intro c hc hclen hcp
    rw [List.length_append, List.length_singleton] at hclen
    unfold parentIdx at hcp
    omega
  · intro c hc hclen hcp
    rw [List.length_append, List.length_singleton] at hclen
    unfold parentIdx at hcp
    omega

theorem siftupAux_isHeap (newitem : Event) :
    ∀ (fuel : ℕ) (heap : List Event) (pos : ℕ),
      heap.length ≤ fuel + pos → pos < heap.length →
      (∀ i, 0 < i → i < heap.length → parentIdx i ≠ pos →
        tsAt heap (parentIdx i) ≤ tsAt heap i) →
      (∀ c, 0 < c → c < heap.length → parentIdx c = pos → 0 < pos →
        tsAt heap (parentIdx pos) ≤ tsAt heap c) →
      IsHeap (siftupAux 0 newitem fuel heap pos)
  | 0, heap, pos, hfuel, hpos, hJ1, hJ2 => by omega
  | fuel + 1, heap, pos, hfuel, hpos, hJ1, hJ2 => by
    unfold siftupAux
    by_cases hchild : 2 * pos + 1 < heap.length
    · rw [if_pos hchild]
      have hkey : ∀ m : ℕ, 0 < m → m < heap.length → parentIdx m = pos →
          (∀ o, 0 < o → o < heap.length → parentIdx o = pos →
            tsAt heap m ≤ tsAt heap o) →
          IsHeap (siftupAux 0 newitem fuel
            (heap.set pos (heap.getD m default)) m) := by
        intro m hm0 hm hmp hmin
        have hposm : pos < m := by
          have := parentIdx_lt hm0
          omega
        apply siftupAux_isHeap newitem fuel _ m
          (by rw [List.length_set]; omega) (by rw [List.length_set]; exact hm)
        · intro i hi hilen him
          rw [List.length_set] at hilen
          by_cases hip : i = pos
          · subst hip
            have hppos : parentIdx i < i := parentIdx_lt hi
            rw [tsAt_set_ne _ _ _ _ (Ne.symm (ne_of_lt hppos)),
              tsAt_set_self _ _ _ hpos]
            have : tsAt heap m = (heap.getD m default).timestamp := rfl
            rw [← this]
            exact hJ2 m (by omega) hm hmp hi
          · by_cases hpi : parentIdx i = pos
            · by_cases him' : i = m
              · subst him'
                rw [hpi, tsAt_set_self _ _ _ hpos,
                  tsAt_set_ne _ _ _ _ (ne_of_lt hposm)]
                exact le_refl _
              · rw [hpi, tsAt_set_self _ _ _ hpos,
                  tsAt_set_ne _ _ _ _ (Ne.symm hip)]
                have : tsAt heap m = (heap.getD m default).timestamp := rfl
                rw [← this]
                exact hmin i hi hilen hpi
            · rw [tsAt_set_ne _ _ _ _ fun hh => hpi hh.symm,
                tsAt_set_ne _ _ _ _ (Ne.symm hip)]
              exact hJ1 i hi hilen hpi
        · intro c hc hclen hcm hmpos
          rw [List.length_set] at hclen
          have hcgt : m < c := by
            have := parentIdx_lt hc
            omega
          have hcp : c ≠ pos := by omega
          rw [hmp, tsAt_set_self _ _ _ hpos, tsAt_set_ne _ _ _ _ (Ne.symm hcp)]
          have : tsAt heap m = (heap.getD m default).timestamp := rfl
          rw [← this, ← hcm]
          exact hJ1 c hc hclen (by omega)
      by_cases hsel : 2 * pos + 1 + 1 < heap.length ∧
          ¬ (heap.getD (2 * pos + 1) default).timestamp <
            (heap.getD (2 * pos + 1 + 1) default).timestamp
      · rw [if_pos hsel]
        apply hkey (2 * pos + 1 + 1) (by omega) hsel.1 (by unfold parentIdx; omega)
        intro o ho holen hop
        have : o = 2 * pos + 1 ∨ o = 2 * pos + 1 + 1 := by
          unfold parentIdx at hop
          omega
        rcases this with ho' | ho'
        · subst ho'
          exact le_of_not_lt hsel.2
        · subst ho'
          exact le_refl _
      · rw [if_neg hsel]
        apply hkey (2 * pos + 1) (by omega) hchild (by unfold parentIdx; omega)
        intro o ho holen hop
        have : o = 2 * pos + 1 ∨ o = 2 * pos + 1 + 1 := by
          unfold parentIdx at hop
          omega
        rcases this with ho' | ho'
        · subst ho'
          exact le_refl _
        · subst ho'
          rcases not_and_or.mp hsel with hx | hx
          · omega
          · exact le_of_lt (not_not.mp hx)
    · rw [if_neg hchild]
      unfold siftdown
      apply siftdownAux_isHeap newitem pos heap pos le_rfl hpos
      · intro i hi hilen hip
        apply hJ1 i hi hilen
        intro hpi
        unfold parentIdx at hpi
        omega
      · intro c hc hclen hcp
        unfold parentIdx at hcp
        omega
      · intro c hc hclen hcp
        unfold parentIdx at hcp
        omega

theorem heappop_isHeap (heap : List Event) (h : IsHeap heap) (e : Event)
    (rest : List Event) (hpop : heappop heap = some (e, rest)) : IsHeap rest := by
  unfold heappop at hpop
  cases hlast : heap.getLast? with
  | none => rw [hlast] at hpop; exact absurd hpop (by simp)
  | some lastelt =>
    rw [hlast] at hpop
    have hfull : heap.dropLast ++ [lastelt] = heap :=
      List.dropLast_append_getLast? lastelt hlast
    cases hdrop : heap.dropLast with
    | nil =>
      rw [hdrop] at hpop
      simp only [Option.some.injEq, Prod.mk.injEq] at hpop
      rw [← hpop.2]
      intro i hi hilen
      simp at hilen
    | cons r0 rtail =>
      rw [hdrop] at hpop
      simp only [Option.some.injEq, Prod.mk.injEq] at hpop
      rw [← hpop.2]
      rw [hdrop] at hfull
      have hlenheap : heap.length = rtail.length + 2 := by
        rw [← hfull]; simp
      have hsame : ∀ j, 0 < j → j < (lastelt :: rtail).length →
          tsAt (lastelt :: rtail) j = tsAt heap j := by
        intro j hj hjlen
        simp only [List.length_cons] at hjlen
        rw [← hfull]
        cases j with
        | zero => omega
        | succ j' =>
          have hj' : j' < rtail.length := by omega
          rw [tsAt, tsAt, List.getD_cons_succ]
          have h1 : (r0 :: rtail ++ [lastelt]).getD (j' + 1) default
              = (rtail ++ [lastelt]).getD j' default := by
            simp [List.getD_cons_succ]
          rw [h1, getD_append_left _ _ _ hj']
      unfold siftup
      apply siftupAux_isHeap lastelt _ _ 0 (by simp) (by simp)
      · intro i hi hilen hind
        have hpar0 : 0 < parentIdx i := Nat.pos_of_ne_zero hind
        have hparlt : parentIdx i < i := parentIdx_lt hi
        rw [hsame i hi hilen, hsame (parentIdx i) hpar0 (lt_trans hparlt hilen)]
        apply h i hi
        simp only [List.length_cons] at hilen
        omega
      · intro c hc hclen hcp hpos0
        omega

theorem isHeap_root_le (heap : List Event) (h : IsHeap heap) :
    ∀ i, i < heap.length → tsAt heap 0 ≤ tsAt heap i := by
  intro i
  induction i using Nat.strong_induction_on with
  | _ i ih =>
    intro hilen
    rcases Nat.eq_zero_or_pos i with hi0 | hi0
    · rw [hi0]
    · have hp := parentIdx_lt hi0
      exact le_trans (ih (parentIdx i) hp (lt_trans hp hilen)) (h i hi0 hilen)

theorem heappop_min (heap : List Event) (h : IsHeap heap) (e : Event)
    (rest : List Event) (hpop : heappop heap = some (e, rest)) :
    ∀ x ∈ heap, e.timestamp ≤ x.timestamp := by
  have hroot : e = heap.getD 0 default := by
    unfold heappop at hpop
    cases hlast : heap.getLast? with
    | none => rw [hlast] at hpop; exact absurd hpop (by simp)
    | some lastelt =>
      rw [hlast] at hpop
      have hfull : heap.dropLast ++ [lastelt] = heap :=
        List.dropLast_append_getLast? lastelt hlast
      cases hdrop : heap.dropLast with
      | nil =>
        rw [hdrop] at hpop hfull
        simp only [Option.some.injEq, Prod.mk.injEq] at hpop
        rw [← hpop.1, ← hfull]
        simp
      | cons r0 rtail =>
        rw [hdrop] at hpop hfull
        simp only [Option.some.injEq, Prod.mk.injEq] at hpop
        rw [← hpop.1, ← hfull]
        simp
  intro x hx
  rcases List.mem_iff_get.mp hx with ⟨⟨i, hilen⟩, hxi⟩
  have : tsAt heap 0 ≤ tsAt heap i := isHeap_root_le heap h i hilen
  rw [tsAt, tsAt, getD_eq_get heap i hilen] at this
  rw [hroot, ← hxi]
  exact this

/-! ## Draining a heap: order of popped events -/

theorem mem_of_mem_drainLoop :
    ∀ (fuel : ℕ) (h : List Event) (x : Event), x ∈ drainLoop fuel h → x ∈ h
  | 0, h, x, hx => by simp [drainLoop] at hx
  | fuel + 1, h, x, hx => by
    unfold drainLoop at hx
    cases hpop : heappop h with
    | none => rw [hpop] at hx; simp at hx
    | some p =>
      rw [hpop] at hx
      have hperm := heappop_perm h p.1 p.2 hpop
      rcases List.mem_cons.mp hx with hx' | hx'
      · rw [hx']
        exact hperm.mem_iff.mpr (List.mem_cons_self _ _)
      · exact hperm.mem_iff.mpr
          (List.mem_cons_of_mem _ (mem_of_mem_drainLoop fuel p.2 x hx'))

theorem drainLoop_perm :
    ∀ (fuel : ℕ) (h : List Event), h.length ≤ fuel → (drainLoop fuel h).Perm h
  | 0, h, hlen => by
    have : h = [] := List.length_eq_zero.mp (by omega)
    simp [drainLoop, this]
  | fuel + 1, h, hlen => by
    unfold drainLoop
    cases hpop : heappop h with
    | none =>
      rw [(heappop_eq_none_iff h).mp hpop]
    | some p =>
      have hperm := heappop_perm h p.1 p.2 hpop
      have hlen' : p.2.length ≤ fuel := by
        have := hperm.length_eq
        simp at this
        omega
      exact (List.Perm.cons p.1 (drainLoop_perm fuel p.2 hlen')).trans hperm.symm

theorem drainLoop_sorted :
    ∀ (fuel : ℕ) (h : List Event), IsHeap h →
      (drainLoop fuel h).Pairwise (fun a b => a.timestamp ≤ b.timestamp)
  | 0, h, hh => by simp [drainLoop]
  | fuel + 1, h, hh => by
    unfold drainLoop
    cases hpop : heappop h with
    | none => simp
    | some p =>
      refine List.Pairwise.cons ?_ (drainLoop_sorted fuel p.2 (heappop_isHeap h hh p.1 p.2 hpop))
      intro x hx
      have hmem : x ∈ h :=
        (heappop_perm h p.1 p.2 hpop).mem_iff.mpr
          (List.mem_cons_of_mem _ (mem_of_mem_drainLoop fuel p.2 x hx))
      exact heappop_min h hh p.1 p.2 hpop x hmem

theorem foldl_heappush_isHeap :
    ∀ (es : List Event) (acc : List Event), IsHeap acc → IsHeap (es.foldl heappush acc)
  | [], acc, h => h
  | e :: es, acc, h =>
    foldl_heappush_isHeap es (heappush acc e) (heappush_isHeap acc e h)

theorem foldl_heappush_perm :
    ∀ (es : List Event) (acc : List Event), (es.foldl heappush acc).Perm (acc ++ es)
  | [], acc => by simp
  | e :: es, acc => by
    have ih := foldl_heappush_perm es (heappush acc e)
    have h1 : ((heappush acc e) ++ es).Perm ((e :: acc) ++ es) :=
      List.Perm.append_right es (heappush_perm acc e)
    refine (ih.trans (h1.trans ?_))
    exact List.perm_middle.symm

theorem pushAll_isHeap (es : List Event) : IsHeap (pushAll es) :=
  foldl_heappush_isHeap es [] (by intro i hi hilen; simp at hilen)

theorem pushAll_perm (es : List Event) : (pushAll es).Perm es := by
  simpa [pushAll] using foldl_heappush_perm es []

/-! ## Claim C1: first-available dispatch -/

theorem get_next_device_spec : ∀ (ds : List Device),
    (get_next_device ds = none ↔ ∀ d ∈ ds, d.is_busy = true) ∧
    (∀ d : Device, get_next_device ds = some d →
      d.is_busy = false ∧ ∃ i, i < ds.length ∧ ds.getD i default = d ∧
        ∀ j, j < i → (ds.getD j default).is_busy = true)
  | [] => by
    constructor
    · simp [get_next_device]
    · intro d hd
      simp [get_next_device] at hd
  | d0 :: ds => by
    have ih := get_next_device_spec ds
    by_cases hb : d0.is_busy
    · constructor
      · rw [show get_next_device (d0 :: ds) = get_next_device ds by
          simp [get_next_device, hb]]
        rw [ih.1]
        constructor
        · intro h d hd
          rcases List.mem_cons.mp hd with h' | h'
          · rw [h']; exact hb
          · exact h d h'
        · intro h d hd
          exact h d (List.mem_cons_of_mem _ hd)
      · intro d hd
        rw [show get_next_device (d0 :: ds) = get_next_device ds by
          simp [get_next_device, hb]] at hd
        obtain ⟨hbusy, i, hi, hgi, hprev⟩ := ih.2 d hd
        refine ⟨hbusy, i + 1, by simpa using hi, by simpa using hgi, ?_⟩
        intro j hj
        cases j with
        | zero => simpa using hb
        | succ j' => simpa using hprev j' (by omega)
    · have heq : get_next_device (d0 :: ds) = some d0 := by
        simp [get_next_device, hb]
      constructor
      · rw [heq]
        constructor
        · intro h; exact absurd h (by simp)
        · intro h
          exact absurd (h d0 (List.mem_cons_self _ _)) (by simpa using hb)
      · intro d hd
        rw [heq] at hd
        have hd0 : d = d0 := by simpa using hd.symm
        subst hd0
        refine ⟨by simpa using hb, 0, by simp, by simp, ?_⟩
        intro j hj
        omega

/-- C1: the device-selection operation of `Cluster` scans devices in index
order and returns the first device whose busy flag is false; if every device
is busy it returns none.  Hence a busy device is never returned, and when an
idle device exists the one of lowest index is returned. -/
theorem C1_get_next_device_first_available (c : Cluster) :
    (c.get_next_device = none ↔ ∀ d ∈ c.devices, d.is_busy = true) ∧
    (∀ d : Device, c.get_next_device = some d →
      d.is_busy = false ∧ ∃ i, i < c.devices.length ∧ c.devices.getD i default = d ∧
        ∀ j, j < i → (c.devices.getD j default).is_busy = true) :=
  get_next_device_spec c.devices

/-- C1 witness: on a two-device cluster whose first device is busy, the
selection returns the second (idle, lowest-index idle) device. -/
theorem C1_witness :
    ({ devices := [{ id := 0
                     ttft_ms := 100
                     output_tokens_per_sec := 50
                     is_busy := true
                     current_request := none
                     total_busy_time := 0 },
      Device.init 1 100 50] } : Cluster).get_next_device = some (Device.init 1 100 50) ∧
    (Device.init 1 100 50).is_busy = false := by
  have h := (C1_get_next_device_first_available
    { devices := [{ id := 0
                    ttft_ms := 100
                    output_tokens_per_sec := 50
                    is_busy := true
                    current_request := none
                    total_busy_time := 0 },
      Device.init 1 100 50] }).2 (Device.init 1 100 50)
    (by simp [Cluster.get_next_device, get_next_device, Device.init])
  exact ⟨by simp [Cluster.get_next_device, get_next_device, Device.init], h.1⟩

/-! ## Claim C2: service duration -/

/-- C2: for a device with time-to-first-token `t` ms and decode rate `d > 0`
tokens/s, and a request with output token count `o`, `calculate_duration`
returns exactly `t / 1000 + o / d` seconds.  In this embedding the function
is pure by construction: it reads the two device constants and the request's
output token count and mutates nothing, exactly as the source. -/
theorem C2_calculate_duration (d : Device) (req : Request)
    (hd : 0 < d.output_tokens_per_sec) :
    d.calculate_duration req
      = d.ttft_ms / 1000 + (req.output_tokens : ℚ) / d.output_tokens_per_sec := rfl

/-- C2 witness: a 100 ms / 50 tok/s device serves a 100-output-token request
in 0.1 + 2 = 2.1 seconds. -/
theorem C2_witness :
    (0 : ℚ) < (Device.init 0 100 50).output_tokens_per_sec ∧
    (Device.init 0 100 50).calculate_duration
      { id := 0, arrival_time := 0, input_tokens := 50, output_tokens := 100 }
      = (Device.init 0 100 50).ttft_ms / 1000 +
        ((100 : ℤ) : ℚ) / (Device.init 0 100 50).output_tokens_per_sec ∧
    (Device.init 0 100 50).calculate_duration
      { id := 0, arrival_time := 0, input_tokens := 50, output_tokens := 100 }
      = 21 / 10 := by
  refine ⟨by norm_num [Device.init], ?_, ?_⟩
  · exact C2_calculate_duration (Device.init 0 100 50)
      { id := 0, arrival_time := 0, input_tokens := 50, output_tokens := 100 }
      (by norm_num [Device.init])
  · norm_num [Device.init, Device.calculate_duration]

/-! ## Claim C10: the latency property -/

/-- C10: reading `latency` returns 0 whenever the completion time is still
negative (the -1 sentinel) or the arrival time is negative — never the
negative difference — and returns `completion_time - arrival_time` when both
are non-negative.  It is a total function: it never raises. -/
theorem C10_latency (r : Request) :
    ((r.completion_time < 0 ∨ r.arrival_time < 0) → r.latency = 0) ∧
    (0 ≤ r.completion_time → 0 ≤ r.arrival_time →
      r.latency = r.completion_time - r.arrival_time) := by
  constructor
  · intro h
    rw [Request.latency, if_pos h]
  · intro h1 h2
    rw [Request.latency, if_neg]
    push_neg
    exact ⟨h1, h2⟩

/-- C10 witness: a not-yet-completed request reports latency 0, a completed
one reports completion minus arrival. -/
theorem C10_witness :
    (({ id := 0, arrival_time := 5, input_tokens := 1, output_tokens := 1 } :
      Request).completion_time < 0 ∨
      ({ id := 0, arrival_time := 5, input_tokens := 1, output_tokens := 1 } :
      Request).arrival_time < 0) ∧
    ({ id := 0, arrival_time := 5, input_tokens := 1, output_tokens := 1 } :
      Request).latency = 0 ∧
    ({ id := 0, arrival_time := 5, input_tokens := 1, output_tokens := 1, start_time := 5, completion_time := 7 } : Request).latency
      = ({ id := 0, arrival_time := 5, input_tokens := 1, output_tokens := 1, start_time := 5, completion_time := 7 } : Request).completion_time -
        ({ id := 0, arrival_time := 5, input_tokens := 1, output_tokens := 1, start_time := 5, completion_time := 7 } : Request).arrival_time := by
  have h1 : (({ id := 0, arrival_time := 5, input_tokens := 1, output_tokens := 1 } :
      Request).completion_time < 0 ∨
      ({ id := 0, arrival_time := 5, input_tokens := 1, output_tokens := 1 } :
      Request).arrival_time < 0) := by norm_num
  refine ⟨h1, (C10_latency _).1 h1, (C10_latency _).2 (by norm_num) (by norm_num)⟩

/-! ## Claim C9: no construction-time validation -/

/-- C9 counterexample: constructing a `Device` with decode rate 0 (and a
`Cluster` with zero devices, or a negative decode rate) succeeds and returns
an ordinary object — the source constructors contain no validation and no
failure path, contradicting the claim that non-positive values fail at
construction time. -/
theorem C9_counterexample :
    Device.init 0 100 0
      = { id := 0
          ttft_ms := 100
          output_tokens_per_sec := 0
          is_busy := false
          current_request := none
          total_busy_time := 0 } ∧
    (Cluster.init 0 100 0).devices = [] ∧
    (Cluster.init 2 100 (-5)).devices.length = 2 := by
  refine ⟨rfl, rfl, by simp [Cluster.init]⟩

/-- C9 (amended): `Device.__init__` and `Cluster.__init__` perform no input
validation at all: construction succeeds for every value, including zero and
negative decode rates, zero device counts, and non-positive
time-to-first-token, and simply stores the given fields. -/
theorem C9_construction_no_validation (id : ℕ) (t p : ℚ) (n : ℕ) :
    Device.init id t p = { id := id
                           ttft_ms := t
                           output_tokens_per_sec := p
                           is_busy := false
                           current_request := none
                           total_busy_time := 0 } ∧
    (Cluster.init n t p).devices.length = n ∧
    (∀ d ∈ (Cluster.init n t p).devices,
      d.ttft_ms = t ∧ d.output_tokens_per_sec = p ∧ d.is_busy = false) := by
  refine ⟨rfl, by simp [Cluster.init], ?_⟩
  intro d hd
  simp only [Cluster.init, List.mem_map, List.mem_range] at hd
  obtain ⟨i, _, rfl⟩ := hd
  exact ⟨rfl, rfl, rfl⟩

/-! ## Claim C4: event queue ordering -/

/-- C4 (amended): for every push sequence, popping the heap dry yields
exactly the pushed events (a permutation) in non-decreasing timestamp order,
and the pop order is a function of the push sequence alone (the embedding is
deterministic by construction); but equal-timestamp events are not
necessarily popped in insertion order (see the counterexample). -/
theorem C4_pop_order (es : List Event) :
    (drain (pushAll es)).Perm es ∧
    (drain (pushAll es)).Pairwise (fun a b => a.timestamp ≤ b.timestamp) :=
  ⟨(drainLoop_perm _ _ le_rfl).trans (pushAll_perm es),
   drainLoop_sorted _ _ (pushAll_isHeap es)⟩

/-- C4 counterexample: four events with identical timestamps, pushed in
request-id order 1,2,3,4, pop in order 1,3,2,4 — the tie between events 2
and 3 is broken against insertion order, refuting the stable tie-break. -/
theorem C4_counterexample :
    drain (pushAll [⟨5, "T", 1, none⟩, ⟨5, "T", 2, none⟩,
        ⟨5, "T", 3, none⟩, ⟨5, "T", 4, none⟩])
      = [⟨5, "T", 1, none⟩, ⟨5, "T", 3, none⟩, ⟨5, "T", 2, none⟩, ⟨5, "T", 4, none⟩] ∧
    ([⟨5, "T", 1, none⟩, ⟨5, "T", 3, none⟩, ⟨5, "T", 2, none⟩, ⟨5, "T", 4, none⟩]
      ≠ ([⟨5, "T", 1, none⟩, ⟨5, "T", 2, none⟩, ⟨5, "T", 3, none⟩,
        ⟨5, "T", 4, none⟩] : List Event)) := by
  constructor
  · norm_num [drain, pushAll, drainLoop, heappush, heappop, siftdown, siftup,
      siftdownAux, siftupAux]
  · intro hcontra
    have h2 := congrArg (fun l : List Event => (l.getD 1 default).request_id) hcontra
    simp at h2

/-! ## Literal string facts used when evaluating concrete runs -/

theorem strAA : ("REQUEST_ARRIVAL" = "REQUEST_ARRIVAL") = True := by simp

theorem strFA : ("DEVICE_FREE" = "REQUEST_ARRIVAL") = False := by simp

theorem strFF : ("DEVICE_FREE" = "DEVICE_FREE") = True := by simp

theorem strBA : ("BOGUS" = "REQUEST_ARRIVAL") = False := by simp

theorem strBF : ("BOGUS" = "DEVICE_FREE") = False := by simp

/-! ## Claim C8: degenerate statistics -/

/-- C8 counterexample: running the simulator on an empty request list and
querying statistics does not produce zero/empty statistics — it returns the
bare string sentinel `"No requests completed."`, not a statistics table (so
in particular not a table with zero completed requests and zero
throughput). -/
theorem C8_counterexample :
    statsOf (Simulator.run (Cluster.init 2 100 50) [])
      = .ok (.message "No requests completed.") ∧
    (StatsResult.message "No requests completed.").isTable = false := by
  constructor
  · norm_num [Simulator.run, registerAll, runLoop, runStep, heappop,
      Simulator.init, statsOf, get_stats]
  · rfl

/-- C8 (amended): running on an empty request list never raises — it returns
the initial state unchanged — and querying statistics whenever zero requests
have completed returns the string sentinel `"No requests completed."` (the
division-by-zero branch is never reached because the function returns the
sentinel first). -/
theorem C8_empty_run_stats (c : Cluster) (st : SimState) :
    Simulator.run c [] = .ok (Simulator.init c) ∧
    (st.completed_requests = [] →
      get_stats st = .message "No requests completed.") := by
  constructor
  · norm_num [Simulator.run, registerAll, runLoop, runStep, heappop,
      Simulator.init]
  · intro h
    simp only [get_stats, h]

/-- C8 witness: the amended statement applied to a concrete cluster and the
fresh state of its own empty run. -/
theorem C8_witness :
    Simulator.run (Cluster.init 1 100 50) [] = .ok (Simulator.init (Cluster.init 1 100 50)) ∧
    (Simulator.init (Cluster.init 1 100 50)).completed_requests = [] ∧
    get_stats (Simulator.init (Cluster.init 1 100 50))
      = .message "No requests completed." := by
  refine ⟨(C8_empty_run_stats (Cluster.init 1 100 50) (Simulator.init (Cluster.init 1 100 50))).1,
    rfl,
    (C8_empty_run_stats (Cluster.init 1 100 50) (Simulator.init (Cluster.init 1 100 50))).2 rfl⟩

/-! ## Claim C7: dispatch of unknown events -/

/-- C7 (amended): during the event loop, an event of a recognized kind whose
request id is not registered in the identity map aborts the run with an
error (Python's `KeyError`), but an event whose kind is neither
`REQUEST_ARRIVAL` nor `DEVICE_FREE` is silently dropped: the step succeeds
and the loop continues with the remaining events. -/
theorem C7_event_dispatch (st : SimState) (e : Event) (rest : List Event)
    (hpop : heappop st.events = some (e, rest)) :
    ((e.type ≠ "REQUEST_ARRIVAL" ∧ e.type ≠ "DEVICE_FREE") →
      runStep st = .ok (some { st with events := rest, current_time := e.timestamp })) ∧
    (e.type = "REQUEST_ARRIVAL" → mapGet st.requests_map e.request_id = none →
      runStep st = .error "KeyError: request_id not in requests_map") ∧
    (e.type = "DEVICE_FREE" → mapGet st.requests_map e.request_id = none →
      runStep st = .error "KeyError: request_id not in requests_map") := by
  refine ⟨?_, ?_, ?_⟩
  · intro h
    simp only [runStep, hpop]
    rw [if_neg h.1, if_neg h.2]
  · intro h1 h2
    simp only [runStep, hpop]
    rw [if_pos h1]
    simp only [handle_arrival, h2]
    rfl
  · intro h1 h2
    simp only [runStep, hpop]
    rw [if_neg (show ¬ e.type = "REQUEST_ARRIVAL" by simp [h1]), if_pos h1]
    simp only [handle_completion, h2]
    rfl

/-- C7 counterexample: a queue holding an event of unknown kind `"BOGUS"`
does not abort the run — the event is silently skipped, the loop runs to
completion, and statistics are still produced afterwards. -/
theorem C7_counterexample :
    runLoop 2 { devices := (Cluster.init 1 100 50).devices
                events := [⟨0, "BOGUS", 0, none⟩]
                current_time := 0
                waiting_queue := []
                completed_requests := []
                requests_map := [] }
      = .ok { devices := (Cluster.init 1 100 50).devices
              events := []
              current_time := 0
              waiting_queue := []
              completed_requests := []
              requests_map := [] } ∧
    get_stats { devices := (Cluster.init 1 100 50).devices
                events := []
                current_time := 0
                waiting_queue := []
                completed_requests := []
                requests_map := [] }
      = .message "No requests completed." := by
  constructor
  · norm_num [runLoop, runStep, heappop, siftup, siftupAux, siftdown, siftdownAux,
      strBA, strBF]
  · rfl

/-! ## Claim C5: the capacity search loop -/

theorem last_sustainable_cons_false (m : ℚ) (tr : List (ℚ × Bool)) (b : ℚ) :
    last_sustainable ((m, false) :: tr) b = last_sustainable tr b := by
  unfold last_sustainable
  rw [List.filter_cons_of_neg (by simp)]

theorem last_sustainable_cons_true (m : ℚ) (tr : List (ℚ × Bool)) (b : ℚ) :
    last_sustainable ((m, true) :: tr) b = last_sustainable tr m := by
  unfold last_sustainable
  rw [List.filter_cons_of_pos (by simp), List.map_cons, List.getLastD_cons]

theorem loop_trace_eq (oracle : ℕ → ℚ → Except String StatsResult × ℕ) (thr : ℚ) :
    ∀ (n idx : ℕ) (low high best : ℚ),
      (find_max_rpm_loop oracle thr n idx low high best).map (fun r => r.2.2.1)
        = (bisection_trace oracle thr n idx low high).map
            (fun tr => last_sustainable tr best)
  | 0, idx, low, high, best => rfl
  | n + 1, idx, low, high, best => by
    rw [find_max_rpm_loop, bisection_trace]
    cases horacle : oracle idx ((low + high) / 2) with
    | mk res idx' =>
      cases res with
      | error e => rfl
      | ok stats =>
        cases stats with
        | message m => rfl
        | table tot avg mx thpt tim =>
          dsimp only
          by_cases hC : thpt < (low + high) / 2 * (95 / 100) ∨ avg > thr
          · have hs : decide (thpt ≥ (low + high) / 2 * (95 / 100) ∧ avg ≤ thr) = false := by
              simp only [decide_eq_false_iff_not, not_and_or, not_le]
              rcases hC with h | h
              · exact Or.inl h
              · exact Or.inr h
            rw [if_pos hC, hs]
            have ih := loop_trace_eq oracle thr n idx' low ((low + high) / 2) best
            simp only [Bool.false_eq_true, if_false]
            cases htr : bisection_trace oracle thr n idx' low ((low + high) / 2) with
            | error e =>
              rw [htr] at ih
              rw [ih]
            | ok tr =>
              rw [htr] at ih
              rw [ih]
              show Except.ok (last_sustainable tr best)
                = Except.ok (last_sustainable (((low + high) / 2, false) :: tr) best)
              rw [last_sustainable_cons_false]
          · have hs : decide (thpt ≥ (low + high) / 2 * (95 / 100) ∧ avg ≤ thr) = true := by
              simp only [decide_eq_true_eq]
              push_neg at hC
              exact ⟨hC.1, hC.2⟩
            rw [if_neg hC, hs]
            have ih := loop_trace_eq oracle thr n idx' ((low + high) / 2) high ((low + high) / 2)
            simp only [if_true]
            cases htr : bisection_trace oracle thr n idx' ((low + high) / 2) high with
            | error e =>
              rw [htr] at ih
              rw [ih]
              rfl
            | ok tr =>
              rw [htr] at ih
              rw [ih]
              show Except.ok (last_sustainable tr ((low + high) / 2))
                = Except.ok (last_sustainable (((low + high) / 2, true) :: tr) best)
              rw [last_sustainable_cons_true]

/-- C5: the capacity search performs exactly 10 bisection iterations over
`[1, 1.5 × theoreticalMaxRate]`; each candidate is classified sustainable
exactly when realized throughput ≥ 0.95 × offered load and average latency ≤
the caller's threshold; sustainable candidates become the new lower bound and
recorded best, unsustainable candidates the new upper bound; and the result
is the last recorded sustainable candidate, or 0 if none was sustainable.
Stated as: the source loop equals, for every workload stream, threshold and
duration, the spec-side model `find_max_rpm_spec` built verbatim from those
words. -/
theorem C5_find_max_rpm_eq_spec (cf : CapacityFinder) (gaps : ℕ → ℚ) (thr dur : ℚ) :
    find_max_rpm cf gaps thr dur = find_max_rpm_spec cf gaps thr dur := by
  unfold find_max_rpm find_max_rpm_spec
  have h := loop_trace_eq (fun idx rpm => run_simulation cf gaps idx rpm dur) thr
    10 0 1 (theoretical_max_rpm cf * (3 / 2)) 0
  cases hloop : find_max_rpm_loop (fun idx rpm => run_simulation cf gaps idx rpm dur)
      thr 10 0 1 (theoretical_max_rpm cf * (3 / 2)) 0 with
  | error e =>
    rw [hloop] at h
    cases htr : bisection_trace (fun idx rpm => run_simulation cf gaps idx rpm dur)
        thr 10 0 1 (theoretical_max_rpm cf * (3 / 2)) with
    | error e' =>
      rw [htr] at h
      dsimp only [Except.map] at h
      exact h
    | ok tr =>
      rw [htr] at h
      dsimp only [Except.map] at h
      exact absurd h (by simp)
  | ok r =>
    rw [hloop] at h
    obtain ⟨l, hgh, b, i⟩ := r
    cases htr : bisection_trace (fun idx rpm => run_simulation cf gaps idx rpm dur)
        thr 10 0 1 (theoretical_max_rpm cf * (3 / 2)) with
    | error e' =>
      rw [htr] at h
      dsimp only [Except.map] at h
      exact absurd h (by simp)
    | ok tr =>
      rw [htr] at h
      dsimp only [Except.map] at h
      simpa using h

/-! ## Single unfoldings of the bisection loop, used to evaluate a concrete
search -/

theorem loop_step_unsustainable (oracle : ℕ → ℚ → Except String StatsResult × ℕ)
    (thr : ℚ) (n idx idx' : ℕ) (low high best mid : ℚ) (tot : ℕ)
    (avg mx thpt tim : ℚ)
    (hmid : (low + high) / 2 = mid)
    (ho : oracle idx mid = (.ok (.table tot avg mx thpt tim), idx'))
    (hcond : thpt < mid * (95 / 100) ∨ avg > thr) :
    find_max_rpm_loop oracle thr (n + 1) idx low high best
      = find_max_rpm_loop oracle thr n idx' low mid best := by
  rw [find_max_rpm_loop, hmid, ho]
  dsimp only
  rw [if_pos hcond]

theorem loop_step_sustainable (oracle : ℕ → ℚ → Except String StatsResult × ℕ)
    (thr : ℚ) (n idx idx' : ℕ) (low high best mid : ℚ) (tot : ℕ)
    (avg mx thpt tim : ℚ)
    (hmid : (low + high) / 2 = mid)
    (ho : oracle idx mid = (.ok (.table tot avg mx thpt tim), idx'))
    (hcond : ¬ (thpt < mid * (95 / 100) ∨ avg > thr)) :
    find_max_rpm_loop oracle thr (n + 1) idx low high best
      = find_max_rpm_loop oracle thr n idx' mid high mid := by
  rw [find_max_rpm_loop, hmid, ho]
  dsimp only
  rw [if_neg hcond]

/-! ## Evaluation of the concrete capacity search (claim C6) -/

theorem cseGen1 : generate_workload (⟨1, 1000, 1, 128, 31⟩ : CapacityFinder) cseGaps 0 (61/32) 1
    = ([cseR1_0], 1) := by
  norm_num [generate_workload, buildRequests, cseGaps, Int.toNat, cseR1_0]

theorem cseReg1 : registerAll (Simulator.init (Cluster.init 1 1000 1)) [cseR1_0]
    = cseS1_0 := by
  norm_num [registerAll, schedule_event, heappush, siftdown, siftdownAux,
    Simulator.init, Cluster.init, Device.init, mapSet, List.range_succ,
    cseR1_0, cseS1_0]

theorem cseStep1_0 : runStep cseS1_0 = .ok (some cseS1_1) := by
  norm_num [runStep, heappop, heappush, siftdown, siftup, siftdownAux, siftupAux, handle_arrival, handle_completion, start_job, schedule_event, mapSet, mapGet, firstFreeIdx, Device.calculate_duration, Except.map, strAA, strFA, strFF, cseS1_0, cseS1_1, cseR1_0]

theorem cseStep1_1 : runStep cseS1_1 = .ok (some cseS1_2) := by
  norm_num [runStep, heappop, heappush, siftdown, siftup, siftdownAux, siftupAux, handle_arrival, handle_completion, start_job, schedule_event, mapSet, mapGet, firstFreeIdx, Device.calculate_duration, Except.map, strAA, strFA, strFF, cseS1_1, cseS1_2, cseR1_0]

theorem cseRun1 : Simulator.run (Cluster.init 1 1000 1) [cseR1_0] = .ok cseS1_2 := by
  unfold Simulator.run
  rw [cseReg1]
  show runLoop (2+1) cseS1_0 = .ok cseS1_2
  rw [runLoop, cseStep1_0]
  show runLoop (1+1) cseS1_1 = .ok cseS1_2
  rw [runLoop, cseStep1_1]
  show runLoop 1 cseS1_2 = .ok cseS1_2
  norm_num [runLoop, runStep, heappop, cseS1_2]

theorem cseStats1 : get_stats cseS1_2 = .table 1 (32) (32) (20000/10667) (32001/1000) := by
  norm_num [get_stats, listMax, Request.latency, cseS1_2, cseR1_0]

theorem cseOr1 : run_simulation (⟨1, 1000, 1, 128, 31⟩ : CapacityFinder) cseGaps 0 (61/32) 1
    = (.ok (.table 1 (32) (32) (20000/10667) (32001/1000)), 1) := by
  simp only [run_simulation]
  rw [cseGen1]
  dsimp only
  rw [cseRun1]
  dsimp only
  rw [cseStats1]

theorem cseGen2 : generate_workload (⟨1, 1000, 1, 128, 31⟩ : CapacityFinder) cseGaps 1 (151/64) 1
    = ([cseR2_0, cseR2_1], 3) := by
  norm_num [generate_workload, buildRequests, cseGaps, Int.toNat, cseR2_0, cseR2_1]

theorem cseReg2 : registerAll (Simulator.init (Cluster.init 1 1000 1)) [cseR2_0, cseR2_1]
    = cseS2_0 := by
  norm_num [registerAll, schedule_event, heappush, siftdown, siftdownAux,
    Simulator.init, Cluster.init, Device.init, mapSet, List.range_succ,
    cseR2_0, cseR2_1, cseS2_0]

theorem cseStep2_0 : runStep cseS2_0 = .ok (some cseS2_1) := by
  norm_num [runStep, heappop, heappush, siftdown, siftup, siftdownAux, siftupAux, handle_arrival, handle_completion, start_job, schedule_event, mapSet, mapGet, firstFreeIdx, Device.calculate_duration, Except.map, strAA, strFA, strFF, cseS2_0, cseS2_1, cseR2_0, cseR2_1]

theorem cseStep2_1 : runStep cseS2_1 = .ok (some cseS2_2) := by
  norm_num [runStep, heappop, heappush, siftdown, siftup, siftdownAux, siftupAux, handle_arrival, handle_completion, start_job, schedule_event, mapSet, mapGet, firstFreeIdx, Device.calculate_duration, Except.map, strAA, strFA, strFF, cseS2_1, cseS2_2, cseR2_0, cseR2_1]

theorem cseStep2_2 : runStep cseS2_2 = .ok (some cseS2_3) := by
  norm_num [runStep, heappop, heappush, siftdown, siftup, siftdownAux, siftupAux, handle_arrival, handle_completion, start_job, schedule_event, mapSet, mapGet, firstFreeIdx, Device.calculate_duration, Except.map, strAA, strFA, strFF, cseS2_2, cseS2_3, cseR2_0, cseR2_1]

theorem cseStep2_3 : runStep cseS2_3 = .ok (some cseS2_4) := by
  norm_num [runStep, heappop, heappush, siftdown, siftup, siftdownAux, siftupAux, handle_arrival, handle_completion, start_job, schedule_event, mapSet, mapGet, firstFreeIdx, Device.calculate_duration, Except.map, strAA, strFA, strFF, cseS2_3, cseS2_4, cseR2_0, cseR2_1]

theorem cseRun2 : Simulator.run (Cluster.init 1 1000 1) [cseR2_0, cseR2_1] = .ok cseS2_4 := by
  unfold Simulator.run
  rw [cseReg2]
  show runLoop (4+1) cseS2_0 = .ok cseS2_4
  rw [runLoop, cseStep2_0]
  show runLoop (3+1) cseS2_1 = .ok cseS2_4
  rw [runLoop, cseStep2_1]
  show runLoop (2+1) cseS2_2 = .ok cseS2_4
  rw [runLoop, cseStep2_2]
  show runLoop (1+1) cseS2_3 = .ok cseS2_4
  rw [runLoop, cseStep2_3]
  show runLoop 1 cseS2_4 = .ok cseS2_4
  norm_num [runLoop, runStep, heappop, cseS2_4]

theorem cseStats2 : get_stats cseS2_4 = .table 2 (95999/2000) (63999/1000) (120000/64001) (64001/1000) := by
  norm_num [get_stats, listMax, Request.latency, cseS2_4, cseR2_0, cseR2_1]

theorem cseOr2 : run_simulation (⟨1, 1000, 1, 128, 31⟩ : CapacityFinder) cseGaps 1 (151/64) 1
    = (.ok (.table 2 (95999/2000) (63999/1000) (120000/64001) (64001/1000)), 3) := by
  simp only [run_simulation]
  rw [cseGen2]
  dsimp only
  rw [cseRun2]
  dsimp only
  rw [cseStats2]

theorem cseGen3 : generate_workload (⟨1, 1000, 1, 128, 31⟩ : CapacityFinder) cseGaps 3 (273/128) 1
    = ([cseR3_0, cseR3_1], 5) := by
  norm_num [generate_workload, buildRequests, cseGaps, Int.toNat, cseR3_0, cseR3_1]

theorem cseReg3 : registerAll (Simulator.init (Cluster.init 1 1000 1)) [cseR3_0, cseR3_1]
    = cseS3_0 := by
  norm_num [registerAll, schedule_event, heappush, siftdown, siftdownAux,
    Simulator.init, Cluster.init, Device.init, mapSet, List.range_succ,
    cseR3_0, cseR3_1, cseS3_0]

theorem cseStep3_0 : runStep cseS3_0 = .ok (some cseS3_1) := by
  norm_num [runStep, heappop, heappush, siftdown, siftup, siftdownAux, siftupAux, handle_arrival, handle_completion, start_job, schedule_event, mapSet, mapGet, firstFreeIdx, Device.calculate_duration, Except.map, strAA, strFA, strFF, cseS3_0, cseS3_1, cseR3_0, cseR3_1]

theorem cseStep3_1 : runStep cseS3_1 = .ok (some cseS3_2) := by
  norm_num [runStep, heappop, heappush, siftdown, siftup, siftdownAux, siftupAux, handle_arrival, handle_completion, start_job, schedule_event, mapSet, mapGet, firstFreeIdx, Device.calculate_duration, Except.map, strAA, strFA, strFF, cseS3_1, cseS3_2, cseR3_0, cseR3_1]

theorem cseStep3_2 : runStep cseS3_2 = .ok (some cseS3_3) := by
  norm_num [runStep, heappop, heappush, siftdown, siftup, siftdownAux, siftupAux, handle_arrival, handle_completion, start_job, schedule_event, mapSet, mapGet, firstFreeIdx, Device.calculate_duration, Except.map, strAA, strFA, strFF, cseS3_2, cseS3_3, cseR3_0, cseR3_1]

theorem cseStep3_3 : runStep cseS3_3 = .ok (some cseS3_4) := by
  norm_num [runStep, heappop, heappush, siftdown, siftup, siftdownAux, siftupAux, handle_arrival, handle_completion, start_job, schedule_event, mapSet, mapGet, firstFreeIdx, Device.calculate_duration, Except.map, strAA, strFA, strFF, cseS3_3, cseS3_4, cseR3_0, cseR3_1]

theorem cseRun3 : Simulator.run (Cluster.init 1 1000 1) [cseR3_0, cseR3_1] = .ok cseS3_4 := by
  unfold Simulator.run
  rw [cseReg3]
  show runLoop (4+1) cseS3_0 = .ok cseS3_4
  rw [runLoop, cseStep3_0]
  show runLoop (3+1) cseS3_1 = .ok cseS3_4
  rw [runLoop, cseStep3_1]
  show runLoop (2+1) cseS3_2 = .ok cseS3_4
  rw [runLoop, cseStep3_2]
  show runLoop (1+1) cseS3_3 = .ok cseS3_4
  rw [runLoop, cseStep3_3]
  show runLoop 1 cseS3_4 = .ok cseS3_4
  norm_num [runLoop, runStep, heappop, cseS3_4]

theorem cseStats3 : get_stats cseS3_4 = .table 2 (95999/2000) (63999/1000) (120000/64001) (64001/1000) := by
  norm_num [get_stats, listMax, Request.latency, cseS3_4, cseR3_0, cseR3_1]

theorem cseOr3 : run_simulation (⟨1, 1000, 1, 128, 31⟩ : CapacityFinder) cseGaps 3 (273/128) 1
    = (.ok (.table 2 (95999/2000) (63999/1000) (120000/64001) (64001/1000)), 5) := by
  simp only [run_simulation]
  rw [cseGen3]
  dsimp only
  rw [cseRun3]
  dsimp only
  rw [cseStats3]

theorem cseGen4 : generate_workload (⟨1, 1000, 1, 128, 31⟩ : CapacityFinder) cseGaps 5 (517/256) 1
    = ([cseR4_0, cseR4_1], 7) := by
  norm_num [generate_workload, buildRequests, cseGaps, Int.toNat, cseR4_0, cseR4_1]

theorem cseReg4 : registerAll (Simulator.init (Cluster.init 1 1000 1)) [cseR4_0, cseR4_1]
    = cseS4_0 := by
  norm_num [registerAll, schedule_event, heappush, siftdown, siftdownAux,
    Simulator.init, Cluster.init, Device.init, mapSet, List.range_succ,
    cseR4_0, cseR4_1, cseS4_0]

theorem cseStep4_0 : runStep cseS4_0 = .ok (some cseS4_1) := by
  norm_num [runStep, heappop, heappush, siftdown, siftup, siftdownAux, siftupAux, handle_arrival, handle_completion, start_job, schedule_event, mapSet, mapGet, firstFreeIdx, Device.calculate_duration, Except.map, strAA, strFA, strFF, cseS4_0, cseS4_1, cseR4_0, cseR4_1]

theorem cseStep4_1 : runStep cseS4_1 = .ok (some cseS4_2) := by
  norm_num [runStep, heappop, heappush, siftdown, siftup, siftdownAux, siftupAux, handle_arrival, handle_completion, start_job, schedule_event, mapSet, mapGet, firstFreeIdx, Device.calculate_duration, Except.map, strAA, strFA, strFF, cseS4_1, cseS4_2, cseR4_0, cseR4_1]

theorem cseStep4_2 : runStep cseS4_2 = .ok (some cseS4_3) := by
  norm_num [runStep, heappop, heappush, siftdown, siftup, siftdownAux, siftupAux, handle_arrival, handle_completion, start_job, schedule_event, mapSet, mapGet, firstFreeIdx, Device.calculate_duration, Except.map, strAA, strFA, strFF, cseS4_2, cseS4_3, cseR4_0, cseR4_1]

theorem cseStep4_3 : runStep cseS4_3 = .ok (some cseS4_4) := by
  norm_num [runStep, heappop, heappush, siftdown, siftup, siftdownAux, siftupAux, handle_arrival, handle_completion, start_job, schedule_event, mapSet, mapGet, firstFreeIdx, Device.calculate_duration, Except.map, strAA, strFA, strFF, cseS4_3, cseS4_4, cseR4_0, cseR4_1]

theorem cseRun4 : Simulator.run (Cluster.init 1 1000 1) [cseR4_0, cseR4_1] = .ok cseS4_4 := by
  unfold Simulator.run
  rw [cseReg4]
  show runLoop (4+1) cseS4_0 = .ok cseS4_4
  rw [runLoop, cseStep4_0]
  show runLoop (3+1) cseS4_1 = .ok cseS4_4
  rw [runLoop, cseStep4_1]
  show runLoop (2+1) cseS4_2 = .ok cseS4_4
  rw [runLoop, cseStep4_2]
  show runLoop (1+1) cseS4_3 = .ok cseS4_4
  rw [runLoop, cseStep4_3]
  show runLoop 1 cseS4_4 = .ok cseS4_4
  norm_num [runLoop, runStep, heappop, cseS4_4]

theorem cseStats4 : get_stats cseS4_4 = .table 2 (95999/2000) (63999/1000) (120000/64001) (64001/1000) := by
  norm_num [get_stats, listMax, Request.latency, cseS4_4, cseR4_0, cseR4_1]

theorem cseOr4 : run_simulation (⟨1, 1000, 1, 128, 31⟩ : CapacityFinder) cseGaps 5 (517/256) 1
    = (.ok (.table 2 (95999/2000) (63999/1000) (120000/64001) (64001/1000)), 7) := by
  simp only [run_simulation]
  rw [cseGen4]
  dsimp only
  rw [cseRun4]
  dsimp only
  rw [cseStats4]

theorem cseGen5 : generate_workload (⟨1, 1000, 1, 128, 31⟩ : CapacityFinder) cseGaps 7 (1005/512) 1
    = ([cseR5_0], 8) := by
  norm_num [generate_workload, buildRequests, cseGaps, Int.toNat, cseR5_0]

theorem cseReg5 : registerAll (Simulator.init (Cluster.init 1 1000 1)) [cseR5_0]
    = cseS5_0 := by
  norm_num [registerAll, schedule_event, heappush, siftdown, siftdownAux,
    Simulator.init, Cluster.init, Device.init, mapSet, List.range_succ,
    cseR5_0, cseS5_0]

theorem cseStep5_0 : runStep cseS5_0 = .ok (some cseS5_1) := by
  norm_num [runStep, heappop, heappush, siftdown, siftup, siftdownAux, siftupAux, handle_arrival, handle_completion, start_job, schedule_event, mapSet, mapGet, firstFreeIdx, Device.calculate_duration, Except.map, strAA, strFA, strFF, cseS5_0, cseS5_1, cseR5_0]

theorem cseStep5_1 : runStep cseS5_1 = .ok (some cseS5_2) := by
  norm_num [runStep, heappop, heappush, siftdown, siftup, siftdownAux, siftupAux, handle_arrival, handle_completion, start_job, schedule_event, mapSet, mapGet, firstFreeIdx, Device.calculate_duration, Except.map, strAA, strFA, strFF, cseS5_1, cseS5_2, cseR5_0]

theorem cseRun5 : Simulator.run (Cluster.init 1 1000 1) [cseR5_0] = .ok cseS5_2 := by
  unfold Simulator.run
  rw [cseReg5]
  show runLoop (2+1) cseS5_0 = .ok cseS5_2
  rw [runLoop, cseStep5_0]
  show runLoop (1+1) cseS5_1 = .ok cseS5_2
  rw [runLoop, cseStep5_1]
  show runLoop 1 cseS5_2 = .ok cseS5_2
  norm_num [runLoop, runStep, heappop, cseS5_2]

theorem cseStats5 : get_stats cseS5_2 = .table 1 (32) (32) (20000/10667) (32001/1000) := by
  norm_num [get_stats, listMax, Request.latency, cseS5_2, cseR5_0]

theorem cseOr5 : run_simulation (⟨1, 1000, 1, 128, 31⟩ : CapacityFinder) cseGaps 7 (1005/512) 1
    = (.ok (.table 1 (32) (32) (20000/10667) (32001/1000)), 8) := by
  simp only [run_simulation]
  rw [cseGen5]
  dsimp only
  rw [cseRun5]
  dsimp only
  rw [cseStats5]

theorem cseGen6 : generate_workload (⟨1, 1000, 1, 128, 31⟩ : CapacityFinder) cseGaps 8 (2039/1024) 1
    = ([cseR6_0], 9) := by
  norm_num [generate_workload, buildRequests, cseGaps, Int.toNat, cseR6_0]

theorem cseReg6 : registerAll (Simulator.init (Cluster.init 1 1000 1)) [cseR6_0]
    = cseS6_0 := by
  norm_num [registerAll, schedule_event, heappush, siftdown, siftdownAux,
    Simulator.init, Cluster.init, Device.init, mapSet, List.range_succ,
    cseR6_0, cseS6_0]

theorem cseStep6_0 : runStep cseS6_0 = .ok (some cseS6_1) := by
  norm_num [runStep, heappop, heappush, siftdown, siftup, siftdownAux, siftupAux, handle_arrival, handle_completion, start_job, schedule_event, mapSet, mapGet, firstFreeIdx, Device.calculate_duration, Except.map, strAA, strFA, strFF, cseS6_0, cseS6_1, cseR6_0]

theorem cseStep6_1 : runStep cseS6_1 = .ok (some cseS6_2) := by
  norm_num [runStep, heappop, heappush, siftdown, siftup, siftdownAux, siftupAux, handle_arrival, handle_completion, start_job, schedule_event, mapSet, mapGet, firstFreeIdx, Device.calculate_duration, Except.map, strAA, strFA, strFF, cseS6_1, cseS6_2, cseR6_0]

theorem cseRun6 : Simulator.run (Cluster.init 1 1000 1) [cseR6_0] = .ok cseS6_2 := by
  unfold Simulator.run
  rw [cseReg6]
  show runLoop (2+1) cseS6_0 = .ok cseS6_2
  rw [runLoop, cseStep6_0]
  show runLoop (1+1) cseS6_1 = .ok cseS6_2
  rw [runLoop, cseStep6_1]
  show runLoop 1 cseS6_2 = .ok cseS6_2
  norm_num [runLoop, runStep, heappop, cseS6_2]

theorem cseStats6 : get_stats cseS6_2 = .table 1 (32) (32) (20000/10667) (32001/1000) := by
  norm_num [get_stats, listMax, Request.latency, cseS6_2, cseR6_0]

theorem cseOr6 : run_simulation (⟨1, 1000, 1, 128, 31⟩ : CapacityFinder) cseGaps 8 (2039/1024) 1
    = (.ok (.table 1 (32) (32) (20000/10667) (32001/1000)), 9) := by
  simp only [run_simulation]
  rw [cseGen6]
  dsimp only
  rw [cseRun6]
  dsimp only
  rw [cseStats6]

theorem cseGen7 : generate_workload (⟨1, 1000, 1, 128, 31⟩ : CapacityFinder) cseGaps 9 (4049/2048) 1
    = ([cseR7_0], 10) := by
  norm_num [generate_workload, buildRequests, cseGaps, Int.toNat, cseR7_0]

theorem cseReg7 : registerAll (Simulator.init (Cluster.init 1 1000 1)) [cseR7_0]
    = cseS7_0 := by
  norm_num [registerAll, schedule_event, heappush, siftdown, siftdownAux,
    Simulator.init, Cluster.init, Device.init, mapSet, List.range_succ,
    cseR7_0, cseS7_0]

theorem cseStep7_0 : runStep cseS7_0 = .ok (some cseS7_1) := by
  norm_num [runStep, heappop, heappush, siftdown, siftup, siftdownAux, siftupAux, handle_arrival, handle_completion, start_job, schedule_event, mapSet, mapGet, firstFreeIdx, Device.calculate_duration, Except.map, strAA, strFA, strFF, cseS7_0, cseS7_1, cseR7_0]

theorem cseStep7_1 : runStep cseS7_1 = .ok (some cseS7_2) := by
  norm_num [runStep, heappop, heappush, siftdown, siftup, siftdownAux, siftupAux, handle_arrival, handle_completion, start_job, schedule_event, mapSet, mapGet, firstFreeIdx, Device.calculate_duration, Except.map, strAA, strFA, strFF, cseS7_1, cseS7_2, cseR7_0]

theorem cseRun7 : Simulator.run (Cluster.init 1 1000 1) [cseR7_0] = .ok cseS7_2 := by
  unfold Simulator.run
  rw [cseReg7]
  show runLoop (2+1) cseS7_0 = .ok cseS7_2
  rw [runLoop, cseStep7_0]
  show runLoop (1+1) cseS7_1 = .ok cseS7_2
  rw [runLoop, cseStep7_1]
  show runLoop 1 cseS7_2 = .ok cseS7_2
  norm_num [runLoop, runStep, heappop, cseS7_2]

theorem cseStats7 : get_stats cseS7_2 = .table 1 (32) (32) (20000/10667) (32001/1000) := by
  norm_num [get_stats, listMax, Request.latency, cseS7_2, cseR7_0]

theorem cseOr7 : run_simulation (⟨1, 1000, 1, 128, 31⟩ : CapacityFinder) cseGaps 9 (4049/2048) 1
    = (.ok (.table 1 (32) (32) (20000/10667) (32001/1000)), 10) := by
  simp only [run_simulation]
  rw [cseGen7]
  dsimp only
  rw [cseRun7]
  dsimp only
  rw [cseStats7]

theorem cseGen8 : generate_workload (⟨1, 1000, 1, 128, 31⟩ : CapacityFinder) cseGaps 10 (8069/4096) 1
    = ([cseR8_0], 11) := by
  norm_num [generate_workload, buildRequests, cseGaps, Int.toNat, cseR8_0]

theorem cseReg8 : registerAll (Simulator.init (Cluster.init 1 1000 1)) [cseR8_0]
    = cseS8_0 := by
  norm_num [registerAll, schedule_event, heappush, siftdown, siftdownAux,
    Simulator.init, Cluster.init, Device.init, mapSet, List.range_succ,
    cseR8_0, cseS8_0]

theorem cseStep8_0 : runStep cseS8_0 = .ok (some cseS8_1) := by
  norm_num [runStep, heappop, heappush, siftdown, siftup, siftdownAux, siftupAux, handle_arrival, handle_completion, start_job, schedule_event, mapSet, mapGet, firstFreeIdx, Device.calculate_duration, Except.map, strAA, strFA, strFF, cseS8_0, cseS8_1, cseR8_0]

theorem cseStep8_1 : runStep cseS8_1 = .ok (some cseS8_2) := by
  norm_num [runStep, heappop, heappush, siftdown, siftup, siftdownAux, siftupAux, handle_arrival, handle_completion, start_job, schedule_event, mapSet, mapGet, firstFreeIdx, Device.calculate_duration, Except.map, strAA, strFA, strFF, cseS8_1, cseS8_2, cseR8_0]

theorem cseRun8 : Simulator.run (Cluster.init 1 1000 1) [cseR8_0] = .ok cseS8_2 := by
  unfold Simulator.run
  rw [cseReg8]
  show runLoop (2+1) cseS8_0 = .ok cseS8_2
  rw [runLoop, cseStep8_0]
  show runLoop (1+1) cseS8_1 = .ok cseS8_2
  rw [runLoop, cseStep8_1]
  show runLoop 1 cseS8_2 = .ok cseS8_2
  norm_num [runLoop, runStep, heappop, cseS8_2]

theorem cseStats8 : get_stats cseS8_2 = .table 1 (32) (32) (20000/10667) (32001/1000) := by
  norm_num [get_stats, listMax, Request.latency, cseS8_2, cseR8_0]

theorem cseOr8 : run_simulation (⟨1, 1000, 1, 128, 31⟩ : CapacityFinder) cseGaps 10 (8069/4096) 1
    = (.ok (.table 1 (32) (32) (20000/10667) (32001/1000)), 11) := by
  simp only [run_simulation]
  rw [cseGen8]
  dsimp only
  rw [cseRun8]
  dsimp only
  rw [cseStats8]

theorem cseGen9 : generate_workload (⟨1, 1000, 1, 128, 31⟩ : CapacityFinder) cseGaps 11 (16167/8192) 1
    = ([cseR9_0], 12) := by
  norm_num [generate_workload, buildRequests, cseGaps, Int.toNat, cseR9_0]

theorem cseReg9 : registerAll (Simulator.init (Cluster.init 1 1000 1)) [cseR9_0]
    = cseS9_0 := by
  norm_num [registerAll, schedule_event, heappush, siftdown, siftdownAux,
    Simulator.init, Cluster.init, Device.init, mapSet, List.range_succ,
    cseR9_0, cseS9_0]

theorem cseStep9_0 : runStep cseS9_0 = .ok (some cseS9_1) := by
  norm_num [runStep, heappop, heappush, siftdown, siftup, siftdownAux, siftupAux, handle_arrival, handle_completion, start_job, schedule_event, mapSet, mapGet, firstFreeIdx, Device.calculate_duration, Except.map, strAA, strFA, strFF, cseS9_0, cseS9_1, cseR9_0]

theorem cseStep9_1 : runStep cseS9_1 = .ok (some cseS9_2) := by
  norm_num [runStep, heappop, heappush, siftdown, siftup, siftdownAux, siftupAux, handle_arrival, handle_completion, start_job, schedule_event, mapSet, mapGet, firstFreeIdx, Device.calculate_duration, Except.map, strAA, strFA, strFF, cseS9_1, cseS9_2, cseR9_0]

theorem cseRun9 : Simulator.run (Cluster.init 1 1000 1) [cseR9_0] = .ok cseS9_2 := by
  unfold Simulator.run
  rw [cseReg9]
  show runLoop (2+1) cseS9_0 = .ok cseS9_2
  rw [runLoop, cseStep9_0]
  show runLoop (1+1) cseS9_1 = .ok cseS9_2
  rw [runLoop, cseStep9_1]
  show runLoop 1 cseS9_2 = .ok cseS9_2
  norm_num [runLoop, runStep, heappop, cseS9_2]

theorem cseStats9 : get_stats cseS9_2 = .table 1 (32) (32) (20000/10667) (32001/1000) := by
  norm_num [get_stats, listMax, Request.latency, cseS9_2, cseR9_0]

theorem cseOr9 : run_simulation (⟨1, 1000, 1, 128, 31⟩ : CapacityFinder) cseGaps 11 (16167/8192) 1
    = (.ok (.table 1 (32) (32) (20000/10667) (32001/1000)), 12) := by
  simp only [run_simulation]
  rw [cseGen9]
  dsimp only
  rw [cseRun9]
  dsimp only
  rw [cseStats9]

theorem cseGen10 : generate_workload (⟨1, 1000, 1, 128, 31⟩ : CapacityFinder) cseGaps 12 (32363/16384) 1
    = ([cseR10_0], 13) := by
  norm_num [generate_workload, buildRequests, cseGaps, Int.toNat, cseR10_0]

theorem cseReg10 : registerAll (Simulator.init (Cluster.init 1 1000 1)) [cseR10_0]
    = cseS10_0 := by
  norm_num [registerAll, schedule_event, heappush, siftdown, siftdownAux,
    Simulator.init, Cluster.init, Device.init, mapSet, List.range_succ,
    cseR10_0, cseS10_0]

theorem cseStep10_0 : runStep cseS10_0 = .ok (some cseS10_1) := by
  norm_num [runStep, heappop, heappush, siftdown, siftup, siftdownAux, siftupAux, handle_arrival, handle_completion, start_job, schedule_event, mapSet, mapGet, firstFreeIdx, Device.calculate_duration, Except.map, strAA, strFA, strFF, cseS10_0, cseS10_1, cseR10_0]

theorem cseStep10_1 : runStep cseS10_1 = .ok (some cseS10_2) := by
  norm_num [runStep, heappop, heappush, siftdown, siftup, siftdownAux, siftupAux, handle_arrival, handle_completion, start_job, schedule_event, mapSet, mapGet, firstFreeIdx, Device.calculate_duration, Except.map, strAA, strFA, strFF, cseS10_1, cseS10_2, cseR10_0]

theorem cseRun10 : Simulator.run (Cluster.init 1 1000 1) [cseR10_0] = .ok cseS10_2 := by
  unfold Simulator.run
  rw [cseReg10]
  show runLoop (2+1) cseS10_0 = .ok cseS10_2
  rw [runLoop, cseStep10_0]
  show runLoop (1+1) cseS10_1 = .ok cseS10_2
  rw [runLoop, cseStep10_1]
  show runLoop 1 cseS10_2 = .ok cseS10_2
  norm_num [runLoop, runStep, heappop, cseS10_2]

theorem cseStats10 : get_stats cseS10_2 = .table 1 (32) (32) (20000/10667) (32001/1000) := by
  norm_num [get_stats, listMax, Request.latency, cseS10_2, cseR10_0]

theorem cseOr10 : run_simulation (⟨1, 1000, 1, 128, 31⟩ : CapacityFinder) cseGaps 12 (32363/16384) 1
    = (.ok (.table 1 (32) (32) (20000/10667) (32001/1000)), 13) := by
  simp only [run_simulation]
  rw [cseGen10]
  dsimp only
  rw [cseRun10]
  dsimp only
  rw [cseStats10]

theorem cseLoop : find_max_rpm_loop
    (fun idx rpm => run_simulation (⟨1, 1000, 1, 128, 31⟩ : CapacityFinder) cseGaps idx rpm 1) 100 10 0 1 (45/16) 0
    = .ok (16167/8192, 32363/16384, 16167/8192, 13) := by
  have h1 : find_max_rpm_loop (fun idx rpm => run_simulation (⟨1, 1000, 1, 128, 31⟩ : CapacityFinder) cseGaps idx rpm 1) 100 10 0 (1) (45/16) (0)
      = find_max_rpm_loop (fun idx rpm => run_simulation (⟨1, 1000, 1, 128, 31⟩ : CapacityFinder) cseGaps idx rpm 1) 100 9 1 (61/32) (45/16) (61/32) :=
    loop_step_sustainable _ 100 9 0 1 (1) (45/16) (0) (61/32) 1 (32) (32) (20000/10667) (32001/1000)
      (by norm_num) cseOr1 (by norm_num)
  have h2 : find_max_rpm_loop (fun idx rpm => run_simulation (⟨1, 1000, 1, 128, 31⟩ : CapacityFinder) cseGaps idx rpm 1) 100 9 1 (61/32) (45/16) (61/32)
      = find_max_rpm_loop (fun idx rpm => run_simulation (⟨1, 1000, 1, 128, 31⟩ : CapacityFinder) cseGaps idx rpm 1) 100 8 3 (61/32) (151/64) (61/32) :=
    loop_step_unsustainable _ 100 8 1 3 (61/32) (45/16) (61/32) (151/64) 2 (95999/2000) (63999/1000) (120000/64001) (64001/1000)
      (by norm_num) cseOr2 (by norm_num)
  have h3 : find_max_rpm_loop (fun idx rpm => run_simulation (⟨1, 1000, 1, 128, 31⟩ : CapacityFinder) cseGaps idx rpm 1) 100 8 3 (61/32) (151/64) (61/32)
      = find_max_rpm_loop (fun idx rpm => run_simulation (⟨1, 1000, 1, 128, 31⟩ : CapacityFinder) cseGaps idx rpm 1) 100 7 5 (61/32) (273/128) (61/32) :=
    loop_step_unsustainable _ 100 7 3 5 (61/32) (151/64) (61/32) (273/128) 2 (95999/2000) (63999/1000) (120000/64001) (64001/1000)
      (by norm_num) cseOr3 (by norm_num)
  have h4 : find_max_rpm_loop (fun idx rpm => run_simulation (⟨1, 1000, 1, 128, 31⟩ : CapacityFinder) cseGaps idx rpm 1) 100 7 5 (61/32) (273/128) (61/32)
      = find_max_rpm_loop (fun idx rpm => run_simulation (⟨1, 1000, 1, 128, 31⟩ : CapacityFinder) cseGaps idx rpm 1) 100 6 7 (61/32) (517/256) (61/32) :=
    loop_step_unsustainable _ 100 6 5 7 (61/32) (273/128) (61/32) (517/256) 2 (95999/2000) (63999/1000) (120000/64001) (64001/1000)
      (by norm_num) cseOr4 (by norm_num)
  have h5 : find_max_rpm_loop (fun idx rpm => run_simulation (⟨1, 1000, 1, 128, 31⟩ : CapacityFinder) cseGaps idx rpm 1) 100 6 7 (61/32) (517/256) (61/32)
      = find_max_rpm_loop (fun idx rpm => run_simulation (⟨1, 1000, 1, 128, 31⟩ : CapacityFinder) cseGaps idx rpm 1) 100 5 8 (1005/512) (517/256) (1005/512) :=
    loop_step_sustainable _ 100 5 7 8 (61/32) (517/256) (61/32) (1005/512) 1 (32) (32) (20000/10667) (32001/1000)
      (by norm_num) cseOr5 (by norm_num)
  have h6 : find_max_rpm_loop (fun idx rpm => run_simulation (⟨1, 1000, 1, 128, 31⟩ : CapacityFinder) cseGaps idx rpm 1) 100 5 8 (1005/512) (517/256) (1005/512)
      = find_max_rpm_loop (fun idx rpm => run_simulation (⟨1, 1000, 1, 128, 31⟩ : CapacityFinder) cseGaps idx rpm 1) 100 4 9 (1005/512) (2039/1024) (1005/512) :=
    loop_step_unsustainable _ 100 4 8 9 (1005/512) (517/256) (1005/512) (2039/1024) 1 (32) (32) (20000/10667) (32001/1000)
      (by norm_num) cseOr6 (by norm_num)
  have h7 : find_max_rpm_loop (fun idx rpm => run_simulation (⟨1, 1000, 1, 128, 31⟩ : CapacityFinder) cseGaps idx rpm 1) 100 4 9 (1005/512) (2039/1024) (1005/512)
      = find_max_rpm_loop (fun idx rpm => run_simulation (⟨1, 1000, 1, 128, 31⟩ : CapacityFinder) cseGaps idx rpm 1) 100 3 10 (1005/512) (4049/2048) (1005/512) :=
    loop_step_unsustainable _ 100 3 9 10 (1005/512) (2039/1024) (1005/512) (4049/2048) 1 (32) (32) (20000/10667) (32001/1000)
      (by norm_num) cseOr7 (by norm_num)
  have h8 : find_max_rpm_loop (fun idx rpm => run_simulation (⟨1, 1000, 1, 128, 31⟩ : CapacityFinder) cseGaps idx rpm 1) 100 3 10 (1005/512) (4049/2048) (1005/512)
      = find_max_rpm_loop (fun idx rpm => run_simulation (⟨1, 1000, 1, 128, 31⟩ : CapacityFinder) cseGaps idx rpm 1) 100 2 11 (8069/4096) (4049/2048) (8069/4096) :=
    loop_step_sustainable _ 100 2 10 11 (1005/512) (4049/2048) (1005/512) (8069/4096) 1 (32) (32) (20000/10667) (32001/1000)
      (by norm_num) cseOr8 (by norm_num)
  have h9 : find_max_rpm_loop (fun idx rpm => run_simulation (⟨1, 1000, 1, 128, 31⟩ : CapacityFinder) cseGaps idx rpm 1) 100 2 11 (8069/4096) (4049/2048) (8069/4096)
      = find_max_rpm_loop (fun idx rpm => run_simulation (⟨1, 1000, 1, 128, 31⟩ : CapacityFinder) cseGaps idx rpm 1) 100 1 12 (16167/8192) (4049/2048) (16167/8192) :=
    loop_step_sustainable _ 100 1 11 12 (8069/4096) (4049/2048) (8069/4096) (16167/8192) 1 (32) (32) (20000/10667) (32001/1000)
      (by norm_num) cseOr9 (by norm_num)
  have h10 : find_max_rpm_loop (fun idx rpm => run_simulation (⟨1, 1000, 1, 128, 31⟩ : CapacityFinder) cseGaps idx rpm 1) 100 1 12 (16167/8192) (4049/2048) (16167/8192)
      = find_max_rpm_loop (fun idx rpm => run_simulation (⟨1, 1000, 1, 128, 31⟩ : CapacityFinder) cseGaps idx rpm 1) 100 0 13 (16167/8192) (32363/16384) (16167/8192) :=
    loop_step_unsustainable _ 100 0 12 13 (16167/8192) (4049/2048) (16167/8192) (32363/16384) 1 (32) (32) (20000/10667) (32001/1000)
      (by norm_num) cseOr10 (by norm_num)
  rw [h1, h2, h3, h4, h5, h6, h7, h8, h9, h10]
  rfl

theorem cseFind : find_max_rpm (⟨1, 1000, 1, 128, 31⟩ : CapacityFinder) cseGaps 100 1 = .ok (16167 / 8192) := by
  unfold find_max_rpm
  have hR : theoretical_max_rpm (⟨1, 1000, 1, 128, 31⟩ : CapacityFinder) * (3 / 2) = 45 / 16 := by
    norm_num [theoretical_max_rpm]
  rw [hR, cseLoop]


/-! ## Claim C6: the estimate versus the theoretical maximum -/

theorem mid_bounds (low high : ℚ) :
    min low high ≤ (low + high) / 2 ∧ (low + high) / 2 ≤ max low high := by
  rcases le_total low high with h | h
  · rw [min_eq_left h, max_eq_right h]
    constructor <;> linarith
  · rw [min_eq_right h, max_eq_left h]
    constructor <;> linarith

theorem loop_best_bound (oracle : ℕ → ℚ → Except String StatsResult × ℕ) (thr : ℚ) :
    ∀ (n idx : ℕ) (low high best l h b : ℚ) (i : ℕ),
      find_max_rpm_loop oracle thr n idx low high best = .ok (l, h, b, i) →
      b = best ∨ (min low high ≤ b ∧ b ≤ max low high)
  | 0, idx, low, high, best, l, h, b, i, heq => by
    rw [find_max_rpm_loop] at heq
    simp only [Except.ok.injEq, Prod.mk.injEq] at heq
    exact Or.inl heq.2.2.1.symm
  | n + 1, idx, low, high, best, l, h, b, i, heq => by
    rw [find_max_rpm_loop] at heq
    set mid := (low + high) / 2 with hmid
    have hmb := mid_bounds low high
    rw [← hmid] at hmb
    cases horacle : oracle idx mid with
    | mk res idx' =>
      rw [horacle] at heq
      cases res with
      | error e => exact absurd heq (by simp)
      | ok stats =>
        cases stats with
        | message m => exact absurd heq (by simp)
        | table tot avg mx thpt tim =>
          dsimp only at heq
          by_cases hC : thpt < mid * (95 / 100) ∨ avg > thr
          · rw [if_pos hC] at heq
            rcases loop_best_bound oracle thr n idx' low mid best l h b i heq with
              hb | ⟨hb1, hb2⟩
            · exact Or.inl hb
            · refine Or.inr ⟨le_trans ?_ hb1, le_trans hb2 ?_⟩
              · exact le_min (min_le_left _ _) hmb.1
              · exact max_le (le_max_left _ _) hmb.2
          · rw [if_neg hC] at heq
            rcases loop_best_bound oracle thr n idx' mid high mid l h b i heq with
              hb | ⟨hb1, hb2⟩
            · rw [hb]
              exact Or.inr hmb
            · refine Or.inr ⟨le_trans ?_ hb1, le_trans hb2 ?_⟩
              · exact le_min hmb.1 (min_le_right _ _)
              · exact max_le hmb.2 (le_max_right _ _)

/-- C6 (amended): for every configuration, every outcome of the random
draws, and every threshold and duration, the capacity search's estimate is
bounded by `max 1 (1.5 × theoreticalMaxRate)` — the bisection bracket — but
it is NOT bounded by the theoretical maximum rate itself, which the
counterexample below exceeds. -/
theorem C6_estimate_bounded (cf : CapacityFinder) (gaps : ℕ → ℚ)
    (thr dur q : ℚ) (hq : find_max_rpm cf gaps thr dur = .ok q) :
    q ≤ max 1 (theoretical_max_rpm cf * (3 / 2)) := by
  unfold find_max_rpm at hq
  cases hloop : find_max_rpm_loop (fun idx rpm => run_simulation cf gaps idx rpm dur)
      thr 10 0 1 (theoretical_max_rpm cf * (3 / 2)) 0 with
  | error e => rw [hloop] at hq; exact absurd hq (by simp)
  | ok r =>
    rw [hloop] at hq
    obtain ⟨l, h, b, i⟩ := r
    dsimp only at hq
    simp only [Except.ok.injEq] at hq
    subst hq
    rcases loop_best_bound _ thr 10 0 1 (theoretical_max_rpm cf * (3 / 2)) 0
        l h b i hloop with hb | ⟨hb1, hb2⟩
    · rw [hb]
      exact le_trans zero_le_one (le_max_left _ _)
    · exact le_trans hb2 (le_refl _)

/-- C6 witness: the bound applied to the concrete search evaluated above:
its estimate 16167/8192 is within `max 1 (1.5 × 15/8) = 45/16`. -/
theorem C6_witness :
    find_max_rpm (⟨1, 1000, 1, 128, 31⟩ : CapacityFinder) cseGaps 100 1
      = .ok (16167 / 8192) ∧
    (16167 / 8192 : ℚ)
      ≤ max 1 (theoretical_max_rpm (⟨1, 1000, 1, 128, 31⟩ : CapacityFinder) * (3 / 2)) :=
  ⟨cseFind, C6_estimate_bounded _ cseGaps 100 1 _ cseFind⟩

/-- C6 counterexample: the same concrete search returns 16167/8192 ≈ 1.9735
requests/minute although the theoretical maximum rate of the configuration is
15/8 = 1.875: the claim "the estimate never exceeds the theoretical maximum"
is false (sustainability only requires 95% of the offered load, so loads up
to about `theoreticalMax / 0.95` can be classified sustainable). -/
theorem C6_counterexample :
    find_max_rpm (⟨1, 1000, 1, 128, 31⟩ : CapacityFinder) cseGaps 100 1
      = .ok (16167 / 8192) ∧
    theoretical_max_rpm (⟨1, 1000, 1, 128, 31⟩ : CapacityFinder) < 16167 / 8192 :=
  ⟨cseFind, by norm_num [theoretical_max_rpm]⟩

/-! ## Claim C3: run invariant machinery -/

theorem mapGet_set_self (m : List (ℕ × Request)) (k : ℕ) (r : Request) :
    mapGet (mapSet m k r) k = some r := by
  simp [mapSet, mapGet]

theorem mapGet_set_ne (m : List (ℕ × Request)) (k k' : ℕ) (r : Request)
    (h : k' ≠ k) : mapGet (mapSet m k r) k' = mapGet m k' := by
  simp [mapSet, mapGet, h]

theorem firstFreeIdx_lt : ∀ (ds : List Device) (i : ℕ),
    firstFreeIdx ds = some i → i < ds.length
  | [], i, h => by simp [firstFreeIdx] at h
  | d :: ds, i, h => by
    rw [firstFreeIdx] at h
    by_cases hb : d.is_busy = true
    · rw [if_pos hb, Option.map_eq_some'] at h
      obtain ⟨j, hj, hji⟩ := h
      have := firstFreeIdx_lt ds j hj
      simp only [List.length_cons]
      omega
    · rw [if_neg hb] at h
      simp only [Option.some.injEq] at h
      simp [← h]

theorem start_job_duration_nonneg (d : Device) (r : Request)
    (ht : 0 ≤ d.ttft_ms) (hp : 0 < d.output_tokens_per_sec)
    (ho : 0 ≤ r.output_tokens) :
    0 ≤ d.calculate_duration r := by
  unfold Device.calculate_duration
  have h1 : (0 : ℚ) ≤ d.ttft_ms / 1000 := by positivity
  have h2 : (0 : ℚ) ≤ (r.output_tokens : ℚ) / d.output_tokens_per_sec := by
    apply div_nonneg _ (le_of_lt hp)
    exact_mod_cast ho
  linarith

theorem mem_heappush (heap : List Event) (item x : Event) :
    x ∈ heappush heap item ↔ x = item ∨ x ∈ heap := by
  rw [(heappush_perm heap item).mem_iff, List.mem_cons]

theorem heappush_ids_nodup (heap : List Event) (item : Event) (w : List ℕ)
    (h : item.request_id ∉ heap.map Event.request_id ++ w)
    (hnd : (heap.map Event.request_id ++ w).Nodup) :
    ((heappush heap item).map Event.request_id ++ w).Nodup := by
  have h1 := (heappush_perm heap item).map Event.request_id
  have hp := h1.append_right w
  rw [List.map_cons, List.cons_append] at hp
  rw [hp.nodup_iff]
  exact List.nodup_cons.mpr ⟨h, hnd⟩

theorem start_job_inv (st : SimState) (i : ℕ) (req : Request)
    (hInv : Inv st) (hi : i < st.devices.length)
    (harr : req.arrival_time ≤ st.current_time)
    (hout : 0 ≤ req.output_tokens)
    (hnote : req.id ∉ st.events.map Event.request_id)
    (hnotw : req.id ∉ st.waiting_queue.map Request.id) :
    Inv (start_job st i req) := by
  have hd0 := hInv.devices (st.devices.getD i default) (getD_mem st.devices i hi default)
  have hdur : 0 ≤ (st.devices.getD i default).calculate_duration
      { req with start_time := st.current_time } :=
    start_job_duration_nonneg _ _ hd0.1 hd0.2 hout
  simp only [start_job, schedule_event]
  refine ⟨?_, ?_, ?_, ?_, ?_, ?_, ?_, ?_⟩
  · exact heappush_isHeap _ _ hInv.heap
  · intro e he
    rcases (mem_heappush _ _ _).mp he with he' | he'
    · rw [he']
      dsimp only
      linarith [hInv.future, hdur]
    · exact hInv.future e he'
  · intro e he htype
    rcases (mem_heappush _ _ _).mp he with he' | he'
    · rw [he'] at htype
      exact absurd htype (by simp)
    · obtain ⟨r, hr, hrid, hrarr, h0, hout'⟩ := hInv.arrivals e he' htype
      refine ⟨r, ?_, hrid, hrarr, h0, hout'⟩
      dsimp only
      rw [mapGet_set_ne]
      · exact hr
      · intro hh
        exact hnote (hh ▸ List.mem_map_of_mem Event.request_id he')
  · intro e he htype
    rcases (mem_heappush _ _ _).mp he with he' | he'
    · refine ⟨{ req with start_time := st.current_time }, ?_, ?_, ?_⟩
      · rw [he']
        dsimp only
        exact mapGet_set_self _ _ _
      · dsimp only
        exact harr
      · rw [he']
        dsimp only
        linarith [hdur]
    · obtain ⟨r, hr, hchain, hstart⟩ := hInv.frees e he' htype
      refine ⟨r, ?_, hchain, hstart⟩
      dsimp only
      rw [mapGet_set_ne]
      · exact hr
      · intro hh
        exact hnote (hh ▸ List.mem_map_of_mem Event.request_id he')
  · intro r hr
    obtain ⟨hmapr, hrle, h0, ho⟩ := hInv.waiting r hr
    refine ⟨?_, hrle, h0, ho⟩
    dsimp only
    rw [mapGet_set_ne]
    · exact hmapr
    · intro hh
      exact hnotw (hh ▸ List.mem_map_of_mem Request.id hr)
  · exact hInv.completed
  · intro d hd
    rcases mem_of_mem_set _ _ _ _ hd with hd' | hd'
    · rw [hd']
      exact ⟨hd0.1, hd0.2⟩
    · exact hInv.devices d hd'
  · apply heappush_ids_nodup
    · dsimp only
      intro hmem
      rcases List.mem_append.mp hmem with hh | hh
      · exact hnote hh
      · exact hnotw hh
    · exact hInv.uniq

theorem handle_arrival_inv (st st' : SimState) (rid : ℕ)
    (hInv : Inv st) (r : Request)
    (hmap : mapGet st.requests_map rid = some r)
    (hid : r.id = rid)
    (harr : r.arrival_time ≤ st.current_time)
    (harr0 : 0 ≤ r.arrival_time) (hout : 0 ≤ r.output_tokens)
    (hnote : rid ∉ st.events.map Event.request_id)
    (hnotw : rid ∉ st.waiting_queue.map Request.id)
    (hok : handle_arrival st rid = .ok st') :
    Inv st' := by
  rw [handle_arrival, hmap] at hok
  cases hff : firstFreeIdx st.devices with
  | some i =>
    rw [hff] at hok
    injection hok with h
    subst h
    exact start_job_inv st i r hInv (firstFreeIdx_lt _ _ hff) harr hout
      (by rw [hid]; exact hnote) (by rw [hid]; exact hnotw)
  | none =>
    rw [hff] at hok
    injection hok with h
    subst h
    refine ⟨hInv.heap, hInv.future, hInv.arrivals, hInv.frees, ?_, hInv.completed,
      hInv.devices, ?_⟩
    · intro w hw
      rcases List.mem_append.mp hw with hw' | hw'
      · exact hInv.waiting w hw'
      · have hwr : w = r := by simpa using hw'
        subst hwr
        exact ⟨by rw [hid]; exact hmap, harr, harr0, hout⟩
    · have hperm : (st.events.map Event.request_id ++
          (st.waiting_queue ++ [r]).map Request.id).Perm
          (r.id :: (st.events.map Event.request_id ++ st.waiting_queue.map Request.id)) := by
        rw [List.map_append, ← List.append_assoc, List.map_singleton]
        exact List.perm_append_singleton r.id _
      rw [hperm.nodup_iff]
      refine List.nodup_cons.mpr ⟨?_, hInv.uniq⟩
      rw [hid]
      intro hmem
      rcases List.mem_append.mp hmem with hh | hh
      · exact hnote hh
      · exact hnotw hh

theorem handle_completion_inv (st st' : SimState) (rid : ℕ) (dio : Option ℕ)
    (hInv : Inv st) (r : Request)
    (hmap : mapGet st.requests_map rid = some r)
    (hchain : r.arrival_time ≤ r.start_time)
    (hstart : r.start_time ≤ st.current_time)
    (hnote : rid ∉ st.events.map Event.request_id)
    (hnotw : rid ∉ st.waiting_queue.map Request.id)
    (hok : handle_completion st rid dio = .ok st') :
    Inv st' := by
  have hne_ev : ∀ e ∈ st.events, e.request_id ≠ rid :=
    fun e he hh => hnote (hh ▸ List.mem_map_of_mem Event.request_id he)
  have hne_w : ∀ w ∈ st.waiting_queue, w.id ≠ rid :=
    fun w hw hh => hnotw (hh ▸ List.mem_map_of_mem Request.id hw)
  simp only [handle_completion, hmap] at hok
  cases dio with
  | none => exact absurd hok (by simp)
  | some di =>
    dsimp only at hok
    by_cases hdi : di < st.devices.length
    · rw [if_pos hdi] at hok
      have hd0 := hInv.devices (st.devices.getD di default) (getD_mem st.devices di hdi default)
      cases hwq : st.waiting_queue with
      | nil =>
        rw [hwq] at hok
        dsimp only at hok
        injection hok with h
        subst h
        refine ⟨hInv.heap, hInv.future, ?_, ?_, ?_, ?_, ?_, ?_⟩
        · intro e he htype
          obtain ⟨re, hre, hrid, hrarr, h0, ho⟩ := hInv.arrivals e he htype
          refine ⟨re, ?_, hrid, hrarr, h0, ho⟩
          dsimp only
          rw [mapGet_set_ne _ _ _ _ (hne_ev e he)]
          exact hre
        · intro e he htype
          obtain ⟨re, hre, hc, hs⟩ := hInv.frees e he htype
          refine ⟨re, ?_, hc, hs⟩
          dsimp only
          rw [mapGet_set_ne _ _ _ _ (hne_ev e he)]
          exact hre
        · intro w hw
          dsimp only at hw
          exact absurd hw (List.not_mem_nil w)
        · intro w hw
          dsimp only at hw
          rcases List.mem_append.mp hw with hw' | hw'
          · exact hInv.completed w hw'
          · have hwr : w = { r with completion_time := st.current_time } := by simpa using hw'
            subst hwr
            exact ⟨hchain, hstart⟩
        · intro d hd
          dsimp only at hd
          rcases mem_of_mem_set _ _ _ _ hd with hd' | hd'
          · rw [hd']
            exact ⟨hd0.1, hd0.2⟩
          · exact hInv.devices d hd'
        · have hu0 := hInv.uniq
          rw [hwq] at hu0
          exact hu0
      | cons next rest =>
        rw [hwq] at hok
        dsimp only at hok
        injection hok with h
        subst h
        have hwmem : next ∈ st.waiting_queue := by rw [hwq]; exact List.mem_cons_self next rest
        obtain ⟨hmapn, hnarr, hn0, hnout⟩ := hInv.waiting next hwmem
        have hu := hInv.uniq
        rw [hwq, List.map_cons] at hu
        have hu' := List.nodup_append.mp hu
        have hnidw : next.id ∈ st.waiting_queue.map Request.id := by
          rw [hwq, List.map_cons]
          exact List.mem_cons_self _ _
        refine start_job_inv _ di next ?_ ?_ ?_ ?_ ?_ ?_
        · refine ⟨hInv.heap, hInv.future, ?_, ?_, ?_, ?_, ?_, ?_⟩
          · intro e he htype
            obtain ⟨re, hre, hrid, hrarr, h0, ho⟩ := hInv.arrivals e he htype
            refine ⟨re, ?_, hrid, hrarr, h0, ho⟩
            dsimp only
            rw [mapGet_set_ne _ _ _ _ (hne_ev e he)]
            exact hre
          · intro e he htype
            obtain ⟨re, hre, hc, hs⟩ := hInv.frees e he htype
            refine ⟨re, ?_, hc, hs⟩
            dsimp only
            rw [mapGet_set_ne _ _ _ _ (hne_ev e he)]
            exact hre
          · intro w hw
            dsimp only at hw
            have hw' : w ∈ st.waiting_queue := by
              rw [hwq]
              exact List.mem_cons_of_mem next hw
            obtain ⟨hmw, hwa, hw0, hwo⟩ := hInv.waiting w hw'
            refine ⟨?_, hwa, hw0, hwo⟩
            dsimp only
            rw [mapGet_set_ne _ _ _ _ (hne_w w hw')]
            exact hmw
          · intro w hw
            dsimp only at hw
            rcases List.mem_append.mp hw with hw' | hw'
            · exact hInv.completed w hw'
            · have hwr : w = { r with completion_time := st.current_time } := by simpa using hw'
              subst hwr
              exact ⟨hchain, hstart⟩
          · intro d hd
            dsimp only at hd
            rcases mem_of_mem_set _ _ _ _ hd with hd' | hd'
            · rw [hd']
              exact ⟨hd0.1, hd0.2⟩
            · exact hInv.devices d hd'
          · dsimp only
            have hs1 : List.Sublist (st.events.map Event.request_id ++ rest.map Request.id)
                (st.events.map Event.request_id ++ (next.id :: rest.map Request.id)) := by
              apply List.Sublist.append_left
              exact List.sublist_cons_self next.id (rest.map Request.id)
            exact hu.sublist hs1
        · dsimp only
          rw [List.length_set]
          exact hdi
        · exact hnarr
        · exact hnout
        · dsimp only
          intro hmem
          exact hu'.2.2 hmem (List.mem_cons_self _ _)
        · dsimp only
          exact (List.nodup_cons.mp hu'.2.1).1
    · rw [if_neg hdi] at hok
      exact absurd hok (by simp)

theorem advance_inv (st : SimState) (e : Event) (rest : List Event) (hInv : Inv st)
    (hpop : heappop st.events = some (e, rest)) :
    Inv { st with events := rest, current_time := e.timestamp } := by
  have hperm := heappop_perm st.events e rest hpop
  have hmin := heappop_min st.events hInv.heap e rest hpop
  have hrest := heappop_isHeap st.events hInv.heap e rest hpop
  have hrmem : ∀ f ∈ rest, f ∈ st.events := fun f hf =>
    hperm.mem_iff.mpr (List.mem_cons_of_mem e hf)
  have hupm : (st.events.map Event.request_id ++ st.waiting_queue.map Request.id).Perm
      (e.request_id :: (rest.map Event.request_id ++ st.waiting_queue.map Request.id)) := by
    have h1 := hperm.map Event.request_id
    rw [List.map_cons] at h1
    exact h1.append_right _
  have hemem : e ∈ st.events := hperm.mem_iff.mpr (List.mem_cons_self e rest)
  refine ⟨hrest, ?_, ?_, ?_, ?_, hInv.completed, hInv.devices, ?_⟩
  · intro f hf
    exact hmin f (hrmem f hf)
  · intro f hf htype
    exact hInv.arrivals f (hrmem f hf) htype
  · intro f hf htype
    exact hInv.frees f (hrmem f hf) htype
  · intro w hw
    obtain ⟨hmw, hwa, hw0, hwo⟩ := hInv.waiting w hw
    exact ⟨hmw, le_trans hwa (hInv.future e hemem), hw0, hwo⟩
  · exact (List.nodup_cons.mp (hupm.nodup_iff.mp hInv.uniq)).2

theorem popped_id_fresh (st : SimState) (e : Event) (rest : List Event) (hInv : Inv st)
    (hpop : heappop st.events = some (e, rest)) :
    e.request_id ∉ rest.map Event.request_id ++ st.waiting_queue.map Request.id := by
  have hperm := heappop_perm st.events e rest hpop
  have hupm : (st.events.map Event.request_id ++ st.waiting_queue.map Request.id).Perm
      (e.request_id :: (rest.map Event.request_id ++ st.waiting_queue.map Request.id)) := by
    have h1 := hperm.map Event.request_id
    rw [List.map_cons] at h1
    exact h1.append_right _
  exact (List.nodup_cons.mp (hupm.nodup_iff.mp hInv.uniq)).1

theorem runStep_inv (st st' : SimState) (hInv : Inv st)
    (h : runStep st = .ok (some st')) : Inv st' := by
  rw [runStep] at h
  cases hpop : heappop st.events with
  | none =>
    rw [hpop] at h
    exact absurd h (by simp)
  | some pr =>
    obtain ⟨e, rest⟩ := pr
    rw [hpop] at h
    dsimp only at h
    have hInvA := advance_inv st e rest hInv hpop
    have hfresh := popped_id_fresh st e rest hInv hpop
    have hnote : e.request_id ∉ rest.map Event.request_id :=
      fun hh => hfresh (List.mem_append.mpr (Or.inl hh))
    have hnotw : e.request_id ∉ st.waiting_queue.map Request.id :=
      fun hh => hfresh (List.mem_append.mpr (Or.inr hh))
    have hemem : e ∈ st.events :=
      (heappop_perm st.events e rest hpop).mem_iff.mpr (List.mem_cons_self e rest)
    by_cases hA : e.type = "REQUEST_ARRIVAL"
    · rw [if_pos hA] at h
      obtain ⟨r, hmapr, hrid, hrarr, h0, ho⟩ := hInv.arrivals e hemem hA
      cases hha : handle_arrival { st with events := rest, current_time := e.timestamp }
          e.request_id with
      | error err =>
        rw [hha] at h
        exact absurd h (by simp [Except.map])
      | ok s2 =>
        rw [hha] at h
        simp only [Except.map, Except.ok.injEq, Option.some.injEq] at h
        subst h
        exact handle_arrival_inv _ s2 e.request_id hInvA r hmapr hrid (le_of_eq hrarr)
          h0 ho hnote hnotw hha
    · rw [if_neg hA] at h
      by_cases hF : e.type = "DEVICE_FREE"
      · rw [if_pos hF] at h
        obtain ⟨r, hmapr, hchain, hs⟩ := hInv.frees e hemem hF
        cases hhc : handle_completion { st with events := rest, current_time := e.timestamp }
            e.request_id e.device_id with
        | error err =>
          rw [hhc] at h
          exact absurd h (by simp [Except.map])
        | ok s2 =>
          rw [hhc] at h
          simp only [Except.map, Except.ok.injEq, Option.some.injEq] at h
          subst h
          exact handle_completion_inv _ s2 e.request_id e.device_id hInvA r hmapr hchain hs
            hnote hnotw hhc
      · rw [if_neg hF] at h
        simp only [Except.ok.injEq, Option.some.injEq] at h
        subst h
        exact hInvA

theorem runLoop_inv (fuel : ℕ) (st st' : SimState) (hInv : Inv st)
    (h : runLoop fuel st = .ok st') : Inv st' := by
  induction fuel generalizing st with
  | zero =>
    rw [runLoop] at h
    injection h with h
    subst h
    exact hInv
  | succ n ih =>
    rw [runLoop] at h
    cases hs : runStep st with
    | error err =>
      rw [hs] at h
      exact absurd h (by simp)
    | ok o =>
      cases o with
      | none =>
        rw [hs] at h
        injection h with h
        subst h
        exact hInv
      | some st2 =>
        rw [hs] at h
        exact ih st2 (runStep_inv st st2 hInv hs) h

theorem registerAll_inv : ∀ (reqs : List Request) (st : SimState),
    Inv st → st.current_time = 0 → st.waiting_queue = [] →
    (∀ e ∈ st.events, e.request_id ∉ reqs.map Request.id) →
    (∀ r ∈ reqs, 0 ≤ r.arrival_time ∧ 0 ≤ r.output_tokens) →
    (reqs.map Request.id).Nodup →
    Inv (registerAll st reqs)
  | [], st, hInv, _, _, _, _, _ => hInv
  | r :: rs, st, hInv, hct, hw, hfresh, hbnd, hnd => by
    have hr0 := hbnd r (List.mem_cons_self r rs)
    have hridfresh : r.id ∉ st.events.map Event.request_id ++
        st.waiting_queue.map Request.id := by
      rw [hw]
      intro hmem
      rcases List.mem_append.mp hmem with hh | hh
      · obtain ⟨e, he, hid⟩ := List.mem_map.mp hh
        exact hfresh e he (hid ▸ List.mem_cons_self r.id (rs.map Request.id))
      · exact absurd hh (by simp)
    have hstep : registerAll st (r :: rs) = registerAll
        (schedule_event { st with requests_map := mapSet st.requests_map r.id r }
          r.arrival_time "REQUEST_ARRIVAL" r.id none) rs := by
      rw [registerAll, List.foldl_cons, registerAll]
    rw [hstep]
    simp only [schedule_event]
    apply registerAll_inv rs
    · refine ⟨?_, ?_, ?_, ?_, ?_, hInv.completed, hInv.devices, ?_⟩
      · exact heappush_isHeap _ _ hInv.heap
      · intro e he
        rcases (mem_heappush _ _ _).mp he with he' | he'
        · rw [he']
          dsimp only
          rw [hct]
          exact hr0.1
        · exact hInv.future e he'
      · intro e he htype
        rcases (mem_heappush _ _ _).mp he with he' | he'
        · refine ⟨r, ?_, ?_, ?_, hr0.1, hr0.2⟩
          · rw [he']
            dsimp only
            exact mapGet_set_self _ _ _
          · rw [he']
          · rw [he']
        · obtain ⟨re, hre, hrid, hrarr, h0, ho⟩ := hInv.arrivals e he' htype
          refine ⟨re, ?_, hrid, hrarr, h0, ho⟩
          dsimp only
          rw [mapGet_set_ne]
          · exact hre
          · intro hh
            exact hfresh e he' (hh ▸ List.mem_cons_self r.id (rs.map Request.id))
      · intro e he htype
        rcases (mem_heappush _ _ _).mp he with he' | he'
        · rw [he'] at htype
          exact absurd htype (by simp)
        · obtain ⟨re, hre, hc, hs⟩ := hInv.frees e he' htype
          refine ⟨re, ?_, hc, hs⟩
          dsimp only
          rw [mapGet_set_ne]
          · exact hre
          · intro hh
            exact hfresh e he' (hh ▸ List.mem_cons_self r.id (rs.map Request.id))
      · intro w hw'
        dsimp only at hw'
        rw [hw] at hw'
        exact absurd hw' (List.not_mem_nil w)
      · exact heappush_ids_nodup _ _ _ hridfresh hInv.uniq
    · exact hct
    · exact hw
    · intro e he
      rcases (mem_heappush _ _ _).mp he with he' | he'
      · rw [he']
        dsimp only
        exact (List.nodup_cons.mp hnd).1
      · intro hh
        exact hfresh e he' (List.mem_cons_of_mem r.id hh)
    · exact fun x hx => hbnd x (List.mem_cons_of_mem r hx)
    · exact (List.nodup_cons.mp hnd).2

/-- **C3.**  For every run of the simulator on a request list with distinct
ids, non-negative arrival times and non-negative output token counts, over
devices with non-negative time-to-first-token and positive decode rate,
every request in the completed ledger at the end of the run satisfies
`arrival_time ≤ start_time` and `start_time ≤ completion_time`. -/
theorem C3_timing_invariant (c : Cluster) (requests : List Request)
    (hdev : ∀ d ∈ c.devices, 0 ≤ d.ttft_ms ∧ 0 < d.output_tokens_per_sec)
    (hreq : ∀ r ∈ requests, 0 ≤ r.arrival_time ∧ 0 ≤ r.output_tokens)
    (hids : (requests.map Request.id).Nodup) :
    ∀ r ∈ completedOf (Simulator.run c requests),
      r.arrival_time ≤ r.start_time ∧ r.start_time ≤ r.completion_time := by
  intro r hr
  have hinit : Inv (Simulator.init c) := by
    refine ⟨?_, ?_, ?_, ?_, ?_, ?_, ?_, ?_⟩
    · intro i h0 hlen
      simp only [Simulator.init, List.length_nil] at hlen
      omega
    · intro e he
      exact absurd he (List.not_mem_nil e)
    · intro e he _
      exact absurd he (List.not_mem_nil e)
    · intro e he _
      exact absurd he (List.not_mem_nil e)
    · intro w hw
      exact absurd hw (List.not_mem_nil w)
    · intro w hw
      exact absurd hw (List.not_mem_nil w)
    · intro d hd
      exact hdev d hd
    · exact List.nodup_nil
  have hreg : Inv (registerAll (Simulator.init c) requests) :=
    registerAll_inv requests (Simulator.init c) hinit rfl rfl
      (fun e he => absurd he (List.not_mem_nil e)) hreq hids
  rw [Simulator.run] at hr
  cases hrun : runLoop (2 * requests.length + 1)
      (registerAll (Simulator.init c) requests) with
  | error err =>
    rw [hrun] at hr
    exact absurd hr (List.not_mem_nil r)
  | ok stf =>
    rw [hrun] at hr
    exact (runLoop_inv _ _ stf hreg hrun).completed r hr

theorem C3_witness :
    (∀ d ∈ (Cluster.init 1 100 50).devices,
      0 ≤ d.ttft_ms ∧ 0 < d.output_tokens_per_sec) ∧
    (∀ r ∈ [({ id := 0, arrival_time := 0, input_tokens := 10, output_tokens := 10 } :
        Request)], 0 ≤ r.arrival_time ∧ 0 ≤ r.output_tokens) ∧
    (([({ id := 0, arrival_time := 0, input_tokens := 10, output_tokens := 10 } :
        Request)]).map Request.id).Nodup ∧
    ∀ r ∈ completedOf (Simulator.run (Cluster.init 1 100 50)
        [{ id := 0, arrival_time := 0, input_tokens := 10, output_tokens := 10 }]),
      r.arrival_time ≤ r.start_time ∧ r.start_time ≤ r.completion_time := by
  have h1 : ∀ d ∈ (Cluster.init 1 100 50).devices,
      0 ≤ d.ttft_ms ∧ 0 < d.output_tokens_per_sec := by
    norm_num [Cluster.init, Device.init, List.range_succ]
  have h2 : ∀ r ∈ [({ id := 0, arrival_time := 0, input_tokens := 10, output_tokens := 10 } : Request)], 0 ≤ r.arrival_time ∧ 0 ≤ r.output_tokens := by
    simp
  have h3 : (([({ id := 0, arrival_time := 0, input_tokens := 10, output_tokens := 10 } :
      Request)]).map Request.id).Nodup := by
    simp
  exact ⟨h1, h2, h3, C3_timing_invariant (Cluster.init 1 100 50)
    [{ id := 0, arrival_time := 0, input_tokens := 10, output_tokens := 10 }] h1 h2 h3⟩

/-- C7 witness: the dispatch lemma applied to a one-event queue holding an
unknown kind: the pop hypothesis holds by computation and the step yields
the skipped-event state. -/
theorem C7_witness :
    heappop [(⟨0, "BOGUS", 7, none⟩ : Event)]
      = some (⟨0, "BOGUS", 7, none⟩, ([] : List Event)) ∧
    runStep { devices := []
              events := [⟨0, "BOGUS", 7, none⟩]
              current_time := 0
              waiting_queue := []
              completed_requests := []
              requests_map := [] }
      = .ok (some { devices := []
                    events := []
                    current_time := 0
                    waiting_queue := []
                    completed_requests := []
                    requests_map := [] }) := by
  have hpop : heappop [(⟨0, "BOGUS", 7, none⟩ : Event)]
      = some (⟨0, "BOGUS", 7, none⟩, ([] : List Event)) := by
    norm_num [heappop]
  have h := C7_event_dispatch { devices := []
                                events := [⟨0, "BOGUS", 7, none⟩]
                                current_time := 0
                                waiting_queue := []
                                completed_requests := []
                                requests_map := [] } ⟨0, "BOGUS", 7, none⟩ [] hpop
  exact ⟨hpop, h.1 ⟨by simp, by simp⟩⟩

/-- C9 witness: the amended no-validation statement applied to a negative
decode rate: construction still succeeds and stores the value verbatim. -/
theorem C9_witness :
    Device.init 0 0 (-5) = { id := 0
                             ttft_ms := 0
                             output_tokens_per_sec := -5
                             is_busy := false
                             current_request := none
                             total_busy_time := 0 } ∧
    (Cluster.init 2 0 (-5)).devices.length = 2 ∧
    (∀ d ∈ (Cluster.init 2 0 (-5)).devices,
      d.ttft_ms = 0 ∧ d.output_tokens_per_sec = -5 ∧ d.is_busy = false) :=
  C9_construction_no_validation 0 0 (-5) 2

end MLSim
